import Mathlib

/-!
Shallow embedding of the restore orchestration engine of
`app/services/restore_service.py` (class `RestoreService`), together with the
path handling of the tar `data` extraction filter used by
`RestoreService._extract_backup`.

External effects (container engine calls, filesystem operations, readiness
polling) are modelled by an oracle `Env` fixing the outcome of each effectful
call; the workflow body is translated statement by statement from
`RestoreService._execute_restore_sync`.
-/

/-- The `RestoreStep` enumeration (restore_service.py lines 29-37). -/
inductive RestoreStep where
  | PENDING
  | STOPPING
  | CLEARING
  | EXTRACTING
  | STARTING
  | WAITING_READY
  | COMPLETED
  | FAILED
  deriving DecidableEq, Repr

/-- The `RestoreJob` dataclass (restore_service.py lines 40-52).
`started_at` is omitted (never read by the code under study); `completed_at`
is modelled as a flag recording whether it has been set. -/
structure RestoreJob where
  id : String
  server_name : String
  backup_file : String
  step : RestoreStep := RestoreStep.PENDING
  progress : Nat := 0
  message : String := ""
  error : Option String := none
  completed_at : Bool := false
  container_was_running : Bool := false
  backup_container_was_running : Bool := false
  deriving DecidableEq, Repr

/-- Outcome of probing a container via `client.containers.get(name).status`:
the container reports status `"running"`, reports some other status, or the
probe raises an exception (container absent, engine unreachable, ...). -/
inductive ProbeResult where
  | running
  | otherStatus
  | probeError
  deriving DecidableEq, Repr

/-- `RestoreService._is_container_running` (restore_service.py lines 262-268):
returns whether the status equals `"running"`, and returns `False` when the
probe raises any exception. -/
def isContainerRunning : ProbeResult → Bool
  | ProbeResult.running => true
  | ProbeResult.otherStatus => false
  | ProbeResult.probeError => false

/-- Outcome of the readiness poll loop of step 5 (lines 213-230): the marker
was found within the timeout, the loop timed out without finding it, or the
log read raised (caught and logged at line 229-230). -/
inductive ReadyOutcome where
  | found
  | timedOut
  | logError
  deriving DecidableEq, Repr

/-- `found` is set only when the pattern was seen; both the timeout and a log
read error leave it `False` (lines 217-230). -/
def readyFound : ReadyOutcome → Bool
  | ReadyOutcome.found => true
  | ReadyOutcome.timedOut => false
  | ReadyOutcome.logError => false

/-- State of the server's data directory. `dataDirContents` is meaningful
only when `dataDirExists` is true (it is `[]` otherwise). -/
structure Fs where
  dataDirExists : Bool
  dataDirContents : List String
  deriving DecidableEq, Repr

/-- `shutil.rmtree(data_dir, ignore_errors=True)` (line 151): never raises.
If the directory exists, deletion removes everything it can; `leftover` is
the set of entries deletion failed to remove (so the directory itself is
gone exactly when `leftover` is empty). A missing directory is left missing. -/
def rmtreeIgnoreErrors (fs : Fs) (leftover : List String) : Fs :=
  if fs.dataDirExists then
    { dataDirExists := !leftover.isEmpty, dataDirContents := leftover }
  else
    { dataDirExists := false, dataDirContents := [] }

/-- Oracle fixing the outcome of every effectful call made by one execution
of `RestoreService._execute_restore_sync`. -/
structure Env where
  primaryProbe : ProbeResult
  backupProbe : ProbeResult
  stopOk : Bool
  initFs : Fs
  rmtreeLeftover : List String
  mkdirOk : Bool
  extractOk : Bool
  archiveFiles : List String
  startOk : Bool
  backupRestartOk : Bool
  ready : ReadyOutcome

/-- One call to `RestoreService._update_job`, as observed by a watcher. -/
structure Update where
  step : RestoreStep
  progress : Nat
  message : String
  deriving DecidableEq, Repr

/-- Container-engine mutations performed by the workflow. -/
inductive Event where
  | stoppedPrimary
  | startedPrimary
  | restartedBackup
  deriving DecidableEq, Repr

/-- Running state of one workflow execution: the job being mutated, the
ordered list of `_update_job` calls, the container mutations performed, the
data-directory state, and a snapshot of the latter taken at the end of the
CLEARING step. -/
structure ExecState where
  job : RestoreJob
  updates : List Update
  events : List Event
  fs : Fs
  fsAfterClearing : Option Fs
  deriving Repr

/-- `RestoreService._update_job` (lines 275-283): mutates the job's `step`,
`progress` and `message` fields; here the call is also recorded in the
update trace. -/
def updateJob (st : ExecState) (step : RestoreStep) (progress : Nat)
    (message : String) : ExecState :=
  { st with
    job := { st.job with step := step, progress := progress, message := message },
    updates := st.updates ++ [⟨step, progress, message⟩] }

def addEvent (st : ExecState) (e : Event) : ExecState :=
  { st with events := st.events ++ [e] }

def setRunning (st : ExecState) (b : Bool) : ExecState :=
  { st with job := { st.job with container_was_running := b } }

def setBackupRunning (st : ExecState) (b : Bool) : ExecState :=
  { st with job := { st.job with backup_container_was_running := b } }

/-- The `except Exception` handler (lines 248-255): sets `error` and
`completed_at`, then reports `FAILED` at the job's current (unchanged)
progress value, and returns `False`. -/
def failJob (msg : String) (st0 : ExecState) : ExecState × Bool :=
  let st := { st0 with job := { st0.job with error := some msg, completed_at := true } }
  (updateJob st RestoreStep.FAILED st.job.progress ("Error: " ++ msg), false)

/-- Lines 241-246: set `completed_at`, report `COMPLETED` at 100, return
`True`. -/
def completeJob (st0 : ExecState) : ExecState × Bool :=
  let st := { st0 with job := { st0.job with completed_at := true } }
  (updateJob st RestoreStep.COMPLETED 100 "Restore completed successfully!", true)

/-- Step 5 (lines 207-239): only entered when the primary container was
running; the readiness poll (pattern found, timed out, or log read error,
the latter two leaving `found = False`) never raises, and both branches
continue to completion. -/
def stepWaitReady (env : Env) (st : ExecState) : ExecState × Bool :=
  if st.job.container_was_running then
    let st := updateJob st RestoreStep.WAITING_READY 95
      "Waiting for Minecraft server to start..."
    if readyFound env.ready then
      completeJob (updateJob st RestoreStep.WAITING_READY 99
        "Minecraft server is ready! Players can join.")
    else
      completeJob (updateJob st RestoreStep.WAITING_READY 99
        "Server started (ready check timed out - may still be loading)")
  else completeJob st

/-- Lines 189-205: restart the backup container if it was running; a restart
failure is caught in place and reported only as a warning message. -/
def stepRestartBackup (env : Env) (st : ExecState) : ExecState × Bool :=
  if st.job.backup_container_was_running then
    let st := updateJob st RestoreStep.STARTING 93 "Restarting backup container..."
    if env.backupRestartOk then
      stepWaitReady env (updateJob (addEvent st Event.restartedBackup)
        RestoreStep.STARTING 94 "Backup container restarted")
    else
      stepWaitReady env (updateJob st RestoreStep.STARTING 94
        "Warning: Could not restart backup container")
  else stepWaitReady env st

/-- Step 4 (lines 169-187): start the primary container only if it was
running before the restore; a start failure raises to the handler. -/
def stepStart (env : Env) (st : ExecState) : ExecState × Bool :=
  if st.job.container_was_running then
    let st := updateJob st RestoreStep.STARTING 87 "Starting server container..."
    if env.startOk then
      stepRestartBackup env (updateJob (addEvent st Event.startedPrimary)
        RestoreStep.STARTING 92 "Server container started")
    else
      failJob "Failed to start container: engine error" st
  else
    stepRestartBackup env (updateJob st RestoreStep.STARTING 92
      "Server container left stopped (was not running before)")

/-- Step 3 (lines 158-167): `_extract_backup`; an extraction failure raises
to the handler. On success the archive's files land in the data directory. -/
def stepExtract (env : Env) (st : ExecState) : ExecState × Bool :=
  let st1 := updateJob st RestoreStep.EXTRACTING 45 "Extracting backup..."
  if env.extractOk then
    let st2 := { st1 with
      fs := { st1.fs with dataDirContents := st1.fs.dataDirContents ++ env.archiveFiles } }
    stepStart env (updateJob st2 RestoreStep.EXTRACTING 85 "Backup extracted")
  else
    failJob "Extraction failed: archive error" st1

/-- Step 2 (lines 146-156): `shutil.rmtree(..., ignore_errors=True)` (never
raises, may leave contents behind) followed by
`data_dir.mkdir(parents=True, exist_ok=True)` (no-op when the directory
still exists; creates it when missing, raising to the handler on failure). -/
def stepClear (env : Env) (st : ExecState) : ExecState × Bool :=
  let st1 := updateJob st RestoreStep.CLEARING 30 "Removing old data..."
  let st2 := { st1 with fs := rmtreeIgnoreErrors st.fs env.rmtreeLeftover }
  if (rmtreeIgnoreErrors st.fs env.rmtreeLeftover).dataDirExists then
    let st3 := updateJob st2 RestoreStep.CLEARING 40 "Data directory cleared"
    stepExtract env { st3 with fsAfterClearing := some st3.fs }
  else if env.mkdirOk then
    let st3 := { st2 with fs := { dataDirExists := true, dataDirContents := [] } }
    let st4 := updateJob st3 RestoreStep.CLEARING 40 "Data directory cleared"
    stepExtract env { st4 with fsAfterClearing := some st4.fs }
  else
    failJob "Failed to create data directory: filesystem error" st2

/-- Line 144: record the backup container's probed state, then fall through
to step 2. -/
def afterStop (env : Env) (st : ExecState) : ExecState × Bool :=
  stepClear env (setBackupRunning st (isContainerRunning env.backupProbe))

/-- Step 1 (lines 112-141): probe the primary container; if running, record
the fact and stop it (a stop failure raises to the handler); otherwise record
that it was not running and proceed. -/
def stepStop (env : Env) (st : ExecState) : ExecState × Bool :=
  if isContainerRunning env.primaryProbe then
    let st := setRunning st true
    let st := updateJob st RestoreStep.STOPPING 10 "Stopping server container..."
    if env.stopOk then
      afterStop env (updateJob (addEvent st Event.stoppedPrimary)
        RestoreStep.STOPPING 20 "Server container stopped")
    else
      failJob "Failed to stop container: engine error" st
  else
    let st := setRunning st false
    afterStop env (updateJob st RestoreStep.STOPPING 20 "Server container not running")

/-- `RestoreService._execute_restore_sync` (lines 94-255), for a job that was
found in the registry: the try block runs steps 1-5 and completion; any
exception raised by steps 1-4 lands in the `except` handler (`failJob`). -/
def executeRestore (env : Env) (job0 : RestoreJob) : ExecState × Bool :=
  stepStop env (updateJob ⟨job0, [], [], env.initFs, none⟩
    RestoreStep.STOPPING 5 "Checking container status...")

/-- The `RestoreService` registry state: `self.jobs` and
`self._active_restores` (restore_service.py lines 59-60), as finite maps. -/
structure RestoreService where
  jobs : String → Option RestoreJob
  activeRestores : String → Option String

/-- `RestoreService.create_job` (lines 63-83). The fresh id drawn from
`uuid.uuid4()` is passed in as `freshId`. -/
def createJob (svc : RestoreService) (serverName backupFile freshId : String) :
    Option RestoreJob × RestoreService :=
  let blocked :=
    match svc.activeRestores serverName with
    | some jid =>
      match svc.jobs jid with
      | some j =>
        !(j.step = RestoreStep.COMPLETED ∨ j.step = RestoreStep.FAILED : Bool)
      | none => false
    | none => false
  if blocked then
    (none, svc)
  else
    let job : RestoreJob :=
      { id := freshId, server_name := serverName, backup_file := backupFile }
    (some job,
      { jobs := fun k => if k = freshId then some job else svc.jobs k,
        activeRestores := fun k => if k = serverName then some freshId
          else svc.activeRestores k })

/-- The `finally` block (lines 256-260): clear the active-restore marker for
the job's server only if it still points to this job id. -/
def releaseActive (svc : RestoreService) (serverName jobId : String) :
    RestoreService :=
  if svc.activeRestores serverName = some jobId then
    { svc with activeRestores := fun k => if k = serverName then none
        else svc.activeRestores k }
  else svc

/-- `RestoreService._execute_restore_sync` at the registry level (lines
94-260): a missing job returns `False` before the try block (so the
`finally` cleanup is not yet armed); otherwise the workflow runs, the
mutated job is visible in the registry, and the `finally` block releases the
server's active marker. -/
def runRestore (env : Env) (svc : RestoreService) (jobId : String) :
    RestoreService × Bool :=
  match svc.jobs jobId with
  | none => (svc, false)
  | some job =>
    let r := executeRestore env job
    let svc1 : RestoreService :=
      { svc with jobs := fun k => if k = jobId then some r.1.job else svc.jobs k }
    (releaseActive svc1 job.server_name jobId, r.2)

/-- Position of a step in the success order; `FAILED` sits after every
non-terminal step. -/
def stepIdx : RestoreStep → Nat
  | RestoreStep.PENDING => 0
  | RestoreStep.STOPPING => 1
  | RestoreStep.CLEARING => 2
  | RestoreStep.EXTRACTING => 3
  | RestoreStep.STARTING => 4
  | RestoreStep.WAITING_READY => 5
  | RestoreStep.COMPLETED => 6
  | RestoreStep.FAILED => 7

/-- The fatal-failure conditions of steps 1-4: a needed container stop
fails, the data directory must be recreated and creation fails, extraction
fails, or a needed container start fails. -/
def anyFatal (env : Env) : Bool :=
  (isContainerRunning env.primaryProbe && !env.stopOk)
  || (!(rmtreeIgnoreErrors env.initFs env.rmtreeLeftover).dataDirExists && !env.mkdirOk)
  || !env.extractOk
  || (isContainerRunning env.primaryProbe && !env.startOk)

/-! Section: Trace views and invariants used in the proofs -/

/-- The sequence of `step` values reported through `_update_job`. -/
def stepsOf (st : ExecState) : List RestoreStep := st.updates.map fun u => u.step

/-- The sequence of `progress` values reported through `_update_job`. -/
def progsOf (st : ExecState) : List Nat := st.updates.map fun u => u.progress

/-- Terminal steps of the state machine. -/
def Terminal (s : RestoreStep) : Prop :=
  s = RestoreStep.COMPLETED ∨ s = RestoreStep.FAILED

/-- Order on steps induced by their position in the success sequence. -/
def stepLe (a b : RestoreStep) : Prop := stepIdx a ≤ stepIdx b

/-- The job record mirrors the last reported update. -/
def Agrees (st : ExecState) : Prop :=
  (stepsOf st).getLast? = some st.job.step
    ∧ (progsOf st).getLast? = some st.job.progress

theorem mem_of_getLast?_eq {α : Type} {l : List α} {a : α}
    (h : l.getLast? = some a) : a ∈ l := by
  have hx : a ∈ l.getLast? := Option.mem_def.2 h
  obtain ⟨hne, heq⟩ := List.mem_getLast?_eq_getLast hx
  rw [heq]
  exact List.getLast_mem hne

theorem ne_nil_of_getLast?_eq {α : Type} {l : List α} {a : α}
    (h : l.getLast? = some a) : l ≠ [] := by
  intro hn; subst hn; simp at h

theorem stepsOf_updateJob (st : ExecState) (s : RestoreStep) (p : Nat) (m : String) :
    stepsOf (updateJob st s p m) = stepsOf st ++ [s] := by
  simp [stepsOf, updateJob]

theorem progsOf_updateJob (st : ExecState) (s : RestoreStep) (p : Nat) (m : String) :
    progsOf (updateJob st s p m) = progsOf st ++ [p] := by
  simp [progsOf, updateJob]

theorem agrees_updateJob (st : ExecState) (s : RestoreStep) (p : Nat) (m : String) :
    Agrees (updateJob st s p m) := by
  constructor
  · rw [stepsOf_updateJob, List.getLast?_concat]; rfl
  · rw [progsOf_updateJob, List.getLast?_concat]; rfl

/-- `st1` extends `st` by zero or more in-order, in-bounds, non-terminal
updates, preserving the trace invariants. -/
structure TraceExt (st st1 : ExecState) : Prop where
  upd : ∃ tl, st1.updates = st.updates ++ tl
  chainS : List.Chain' stepLe (RestoreStep.PENDING :: stepsOf st) →
    List.Chain' stepLe (RestoreStep.PENDING :: stepsOf st1)
  chainP : List.Chain' (· ≤ ·) (progsOf st) → List.Chain' (· ≤ ·) (progsOf st1)
  bound : (∀ p ∈ progsOf st, p ≤ 100) → (∀ p ∈ progsOf st1, p ≤ 100)
  noterm : (∀ s ∈ stepsOf st, ¬ Terminal s) → (∀ s ∈ stepsOf st1, ¬ Terminal s)
  agrees : Agrees st1

theorem TraceExt.trans {st st1 st2 : ExecState} (h1 : TraceExt st st1) (h2 : TraceExt st1 st2) :
    TraceExt st st2 := by
  refine ⟨?_, fun h => h2.chainS (h1.chainS h), fun h => h2.chainP (h1.chainP h),
    fun h => h2.bound (h1.bound h), fun h => h2.noterm (h1.noterm h), h2.agrees⟩
  obtain ⟨t1, e1⟩ := h1.upd
  obtain ⟨t2, e2⟩ := h2.upd
  exact ⟨t1 ++ t2, by rw [e2, e1, List.append_assoc]⟩

/-- Extension by a state with identical updates and identical reported job
fields (event additions, flag setters, filesystem bookkeeping). -/
theorem traceExt_same {st st1 : ExecState} (hA : Agrees st)
    (hu : st1.updates = st.updates) (hs : st1.job.step = st.job.step)
    (hp : st1.job.progress = st.job.progress) : TraceExt st st1 := by
  have hsteps : stepsOf st1 = stepsOf st := by simp [stepsOf, hu]
  have hprogs : progsOf st1 = progsOf st := by simp [progsOf, hu]
  refine ⟨⟨[], by simp [hu]⟩, by rw [hsteps]; exact id, by rw [hprogs]; exact id,
    by rw [hprogs]; exact id, by rw [hsteps]; exact id, ?_⟩
  obtain ⟨h1, h2⟩ := hA
  exact ⟨by rw [hsteps, hs]; exact h1, by rw [hprogs, hp]; exact h2⟩

/-- Extension by one `_update_job` call whose step does not go backwards,
whose progress does not decrease, stays in bounds, and is not terminal. -/
theorem traceExt_updateJob {st : ExecState} (hA : Agrees st) {s : RestoreStep}
    {p : Nat} (m : String) (hle : stepLe st.job.step s)
    (hpr : st.job.progress ≤ p) (h100 : p ≤ 100) (hnt : ¬ Terminal s) :
    TraceExt st (updateJob st s p m) := by
  obtain ⟨hA1, hA2⟩ := hA
  refine ⟨⟨[⟨s, p, m⟩], by simp [updateJob]⟩, ?_, ?_, ?_, ?_, agrees_updateJob ..⟩
  · intro h
    rw [stepsOf_updateJob, ← List.cons_append]
    refine List.Chain'.append h (List.chain'_singleton s) ?_
    intro x hx y hy
    have hc : (RestoreStep.PENDING :: stepsOf st).getLast? = some st.job.step := by
      rw [show (RestoreStep.PENDING :: stepsOf st) = [RestoreStep.PENDING] ++ stepsOf st
          from rfl,
        List.getLast?_append_of_ne_nil _ (ne_nil_of_getLast?_eq hA1)]
      exact hA1
    rw [hc] at hx
    simp at hx hy
    rw [← hx, ← hy]; exact hle
  · intro h
    rw [progsOf_updateJob]
    refine List.Chain'.append h (List.chain'_singleton p) ?_
    intro x hx y hy
    rw [hA2] at hx
    simp at hx hy
    omega
  · intro h q hq
    rw [progsOf_updateJob] at hq
    rcases List.mem_append.1 hq with hq | hq
    · exact h q hq
    · simp at hq; rw [hq]; exact h100
  · intro h s' hs'
    rw [stepsOf_updateJob] at hs'
    rcases List.mem_append.1 hs' with hs' | hs'
    · exact h s' hs'
    · simp at hs'; rw [hs']; exact hnt

/-- Full postcondition of the remainder of the workflow started at state
`st`: trace discipline, a terminal outcome, and failure exactly under
`fatal`. -/
structure PostA (st : ExecState) (r : ExecState × Bool) (fatal : Prop) : Prop where
  upd : ∃ tl, r.1.updates = st.updates ++ tl
  chainS : List.Chain' stepLe (RestoreStep.PENDING :: stepsOf st) →
    List.Chain' stepLe (RestoreStep.PENDING :: stepsOf r.1)
  chainP : List.Chain' (· ≤ ·) (progsOf st) → List.Chain' (· ≤ ·) (progsOf r.1)
  bound : (∀ p ∈ progsOf st, p ≤ 100) → (∀ p ∈ progsOf r.1, p ≤ 100)
  noterm : (∀ s ∈ stepsOf st, ¬ Terminal s) →
    (∀ s ∈ (stepsOf r.1).dropLast, ¬ Terminal s)
  agrees : Agrees r.1
  term : Terminal r.1.job.step
  failIff : r.1.job.step = RestoreStep.FAILED ↔ fatal
  retOk : r.2 = true ↔ r.1.job.step = RestoreStep.COMPLETED
  failD : r.1.job.step = RestoreStep.FAILED →
    r.1.job.error.isSome = true ∧ r.1.job.completed_at = true
      ∧ (progsOf r.1).dropLast.getLast? = some r.1.job.progress
  compD : r.1.job.step = RestoreStep.COMPLETED →
    r.1.job.progress = 100 ∧ r.1.job.completed_at = true

theorem PostA.ofExt {st st1 : ExecState} {r : ExecState × Bool} {fatal : Prop}
    (he : TraceExt st st1) (hp : PostA st1 r fatal) : PostA st r fatal := by
  refine ⟨?_, fun h => hp.chainS (he.chainS h), fun h => hp.chainP (he.chainP h),
    fun h => hp.bound (he.bound h), fun h => hp.noterm (he.noterm h),
    hp.agrees, hp.term, hp.failIff, hp.retOk, hp.failD, hp.compD⟩
  obtain ⟨t1, e1⟩ := he.upd
  obtain ⟨t2, e2⟩ := hp.upd
  exact ⟨t1 ++ t2, by rw [e2, e1, List.append_assoc]⟩

theorem PostA.congrFatal {st : ExecState} {r : ExecState × Bool} {f g : Prop}
    (hp : PostA st r f) (h : f ↔ g) : PostA st r g := by
  refine ⟨hp.upd, hp.chainS, hp.chainP, hp.bound, hp.noterm, hp.agrees, hp.term,
    hp.failIff.trans h, hp.retOk, hp.failD, hp.compD⟩

theorem stepLe_FAILED (s : RestoreStep) : stepLe s RestoreStep.FAILED := by
  cases s <;> simp [stepLe, stepIdx]

/-- The exception handler fails the job: trace discipline is kept, the
outcome is `FAILED`, `error` and `completed_at` are set, and the reported
progress repeats the previous value. -/
theorem failJob_postA (msg : String) (st : ExecState) (hA : Agrees st) :
    PostA st (failJob msg st) True := by
  obtain ⟨hA1, hA2⟩ := hA
  have hupd : (failJob msg st).1.updates
      = st.updates ++ [⟨RestoreStep.FAILED, st.job.progress, "Error: " ++ msg⟩] := rfl
  have hsteps : stepsOf (failJob msg st).1 = stepsOf st ++ [RestoreStep.FAILED] := by
    simp [stepsOf, hupd]
  have hprogs : progsOf (failJob msg st).1 = progsOf st ++ [st.job.progress] := by
    simp [progsOf, hupd]
  have hstep : (failJob msg st).1.job.step = RestoreStep.FAILED := rfl
  have hprog : (failJob msg st).1.job.progress = st.job.progress := rfl
  refine ⟨⟨_, hupd⟩, ?_, ?_, ?_, ?_, ?_, ?_, ?_, ?_, ?_, ?_⟩
  · intro h
    rw [hsteps, ← List.cons_append]
    refine List.Chain'.append h (List.chain'_singleton _) ?_
    intro x hx y hy
    simp at hy
    rw [← hy]; exact stepLe_FAILED x
  · intro h
    rw [hprogs]
    refine List.Chain'.append h (List.chain'_singleton _) ?_
    intro x hx y hy
    rw [hA2] at hx
    simp at hx hy
    omega
  · intro h q hq
    rw [hprogs] at hq
    rcases List.mem_append.1 hq with hq | hq
    · exact h q hq
    · simp at hq; rw [hq]; exact h st.job.progress (mem_of_getLast?_eq hA2)
  · intro h s' hs'
    rw [hsteps, List.dropLast_concat] at hs'
    exact h s' hs'
  · exact agrees_updateJob ..
  · exact Or.inr hstep
  · simp [hstep]
  · rw [hstep]; simp [failJob]
  · intro _
    refine ⟨rfl, rfl, ?_⟩
    rw [hprogs, List.dropLast_concat, hprog]
    exact hA2
  · intro hc; rw [hstep] at hc; exact absurd hc (by simp)

/-- Completion: trace discipline is kept, the outcome is `COMPLETED` at
progress 100 with `completed_at` set. -/
theorem completeJob_postA (st : ExecState) (hA : Agrees st)
    (hp : st.job.progress ≤ 100) (hs : stepIdx st.job.step ≤ 6) :
    PostA st (completeJob st) False := by
  obtain ⟨hA1, hA2⟩ := hA
  have hupd : (completeJob st).1.updates
      = st.updates ++ [⟨RestoreStep.COMPLETED, 100, "Restore completed successfully!"⟩] := rfl
  have hsteps : stepsOf (completeJob st).1 = stepsOf st ++ [RestoreStep.COMPLETED] := by
    simp [stepsOf, hupd]
  have hprogs : progsOf (completeJob st).1 = progsOf st ++ [100] := by
    simp [progsOf, hupd]
  have hstep : (completeJob st).1.job.step = RestoreStep.COMPLETED := rfl
  refine ⟨⟨_, hupd⟩, ?_, ?_, ?_, ?_, ?_, ?_, ?_, ?_, ?_, ?_⟩
  · intro h
    rw [hsteps, ← List.cons_append]
    refine List.Chain'.append h (List.chain'_singleton _) ?_
    intro x hx y hy
    have hc : (RestoreStep.PENDING :: stepsOf st).getLast? = some st.job.step := by
      rw [show (RestoreStep.PENDING :: stepsOf st) = [RestoreStep.PENDING] ++ stepsOf st
          from rfl,
        List.getLast?_append_of_ne_nil _ (ne_nil_of_getLast?_eq hA1)]
      exact hA1
    rw [hc] at hx
    simp at hx hy
    rw [← hx, ← hy]
    show stepIdx st.job.step ≤ stepIdx RestoreStep.COMPLETED
    simpa [stepIdx] using hs
  · intro h
    rw [hprogs]
    refine List.Chain'.append h (List.chain'_singleton _) ?_
    intro x hx y hy
    rw [hA2] at hx
    simp at hx hy
    omega
  · intro h q hq
    rw [hprogs] at hq
    rcases List.mem_append.1 hq with hq | hq
    · exact h q hq
    · simp at hq; rw [hq]
  · intro h s' hs'
    rw [hsteps, List.dropLast_concat] at hs'
    exact h s' hs'
  · exact agrees_updateJob ..
  · exact Or.inl hstep
  · rw [hstep]; simp [Terminal]
  · rw [hstep]; simp [completeJob]
  · intro hc; rw [hstep] at hc; exact absurd hc (by simp)
  · intro _; exact ⟨rfl, rfl⟩

/-- Step 5 never fails the job: whatever the readiness outcome (found,
timed out, or a log read error), the workflow completes. -/
theorem stepWaitReady_postA (env : Env) (st : ExecState) (hA : Agrees st)
    (hp : st.job.progress ≤ 95) (hs : stepIdx st.job.step ≤ 5) :
    PostA st (stepWaitReady env st) False := by
  simp only [stepWaitReady]
  split_ifs with h1 h2
  · have e1 : TraceExt st (updateJob st RestoreStep.WAITING_READY 95
        "Waiting for Minecraft server to start...") :=
      traceExt_updateJob hA _ (by simpa [stepLe, stepIdx] using hs) hp (by omega)
        (by simp [Terminal])
    have e2 : TraceExt
        (updateJob st RestoreStep.WAITING_READY 95
          "Waiting for Minecraft server to start...")
        (updateJob (updateJob st RestoreStep.WAITING_READY 95
          "Waiting for Minecraft server to start...") RestoreStep.WAITING_READY 99
          "Minecraft server is ready! Players can join.") :=
      traceExt_updateJob (agrees_updateJob ..) _ (by simp [updateJob, stepLe])
        (by simp [updateJob]) (by omega) (by simp [Terminal])
    exact (completeJob_postA _ (agrees_updateJob ..) (by simp [updateJob])
      (by simp [updateJob, stepIdx])).ofExt (e1.trans e2)
  · have e1 : TraceExt st (updateJob st RestoreStep.WAITING_READY 95
        "Waiting for Minecraft server to start...") :=
      traceExt_updateJob hA _ (by simpa [stepLe, stepIdx] using hs) hp (by omega)
        (by simp [Terminal])
    have e2 : TraceExt
        (updateJob st RestoreStep.WAITING_READY 95
          "Waiting for Minecraft server to start...")
        (updateJob (updateJob st RestoreStep.WAITING_READY 95
          "Waiting for Minecraft server to start...") RestoreStep.WAITING_READY 99
          "Server started (ready check timed out - may still be loading)") :=
      traceExt_updateJob (agrees_updateJob ..) _ (by simp [updateJob, stepLe])
        (by simp [updateJob]) (by omega) (by simp [Terminal])
    exact (completeJob_postA _ (agrees_updateJob ..) (by simp [updateJob])
      (by simp [updateJob, stepIdx])).ofExt (e1.trans e2)
  · exact completeJob_postA st hA (by omega) (by omega)

/-- The backup-container restart step never fails the job. -/
theorem stepRestartBackup_postA (env : Env) (st : ExecState) (hA : Agrees st)
    (hp : st.job.progress ≤ 93) (hs : stepIdx st.job.step ≤ 4) :
    PostA st (stepRestartBackup env st) False := by
  simp only [stepRestartBackup]
  split_ifs with h1 h2
  · have e1 : TraceExt st (updateJob st RestoreStep.STARTING 93
        "Restarting backup container...") :=
      traceExt_updateJob hA _ (by simpa [stepLe, stepIdx] using hs) hp (by omega)
        (by simp [Terminal])
    have e2 : TraceExt (updateJob st RestoreStep.STARTING 93
          "Restarting backup container...")
        (addEvent (updateJob st RestoreStep.STARTING 93
          "Restarting backup container...") Event.restartedBackup) :=
      traceExt_same (agrees_updateJob ..) rfl rfl rfl
    have e3 : TraceExt
        (addEvent (updateJob st RestoreStep.STARTING 93
          "Restarting backup container...") Event.restartedBackup)
        (updateJob (addEvent (updateJob st RestoreStep.STARTING 93
          "Restarting backup container...") Event.restartedBackup)
          RestoreStep.STARTING 94 "Backup container restarted") :=
      traceExt_updateJob (e2.agrees) _
        (by simp [updateJob, addEvent, stepLe]) (by simp [updateJob, addEvent]) (by omega)
        (by simp [Terminal])
    refine (stepWaitReady_postA env _ (agrees_updateJob ..) (by simp [updateJob, addEvent])
      (by simp [updateJob, addEvent, stepIdx])).ofExt ((e1.trans e2).trans e3)
  · have e1 : TraceExt st (updateJob st RestoreStep.STARTING 93
        "Restarting backup container...") :=
      traceExt_updateJob hA _ (by simpa [stepLe, stepIdx] using hs) hp (by omega)
        (by simp [Terminal])
    have e3 : TraceExt
        (updateJob st RestoreStep.STARTING 93 "Restarting backup container...")
        (updateJob (updateJob st RestoreStep.STARTING 93
          "Restarting backup container...") RestoreStep.STARTING 94
          "Warning: Could not restart backup container") :=
      traceExt_updateJob (agrees_updateJob ..) _
        (by simp [updateJob, stepLe]) (by simp [updateJob]) (by omega)
        (by simp [Terminal])
    refine (stepWaitReady_postA env _ (agrees_updateJob ..) (by simp [updateJob])
      (by simp [updateJob, stepIdx])).ofExt (e1.trans e3)
  · exact stepWaitReady_postA env st hA (by omega) (by omega)

/-- Step 4 fails exactly when the primary container must be started and the
start call fails. -/
theorem stepStart_postA (env : Env) (st : ExecState) (hA : Agrees st)
    (hp : st.job.progress ≤ 87) (hs : stepIdx st.job.step ≤ 4) :
    PostA st (stepStart env st)
      (st.job.container_was_running = true ∧ env.startOk = false) := by
  simp only [stepStart]
  split_ifs with h1 h2
  · have e1 : TraceExt st (updateJob st RestoreStep.STARTING 87
        "Starting server container...") :=
      traceExt_updateJob hA _ (by simpa [stepLe, stepIdx] using hs) hp (by omega)
        (by simp [Terminal])
    have e2 : TraceExt (updateJob st RestoreStep.STARTING 87
          "Starting server container...")
        (addEvent (updateJob st RestoreStep.STARTING 87
          "Starting server container...") Event.startedPrimary) :=
      traceExt_same (agrees_updateJob ..) rfl rfl rfl
    have e3 : TraceExt
        (addEvent (updateJob st RestoreStep.STARTING 87
          "Starting server container...") Event.startedPrimary)
        (updateJob (addEvent (updateJob st RestoreStep.STARTING 87
          "Starting server container...") Event.startedPrimary)
          RestoreStep.STARTING 92 "Server container started") :=
      traceExt_updateJob (e2.agrees) _
        (by simp [updateJob, addEvent, stepLe]) (by simp [updateJob, addEvent]) (by omega)
        (by simp [Terminal])
    refine ((stepRestartBackup_postA env _ (agrees_updateJob ..)
        (by simp [updateJob, addEvent]) (by simp [updateJob, addEvent, stepIdx])).ofExt
      ((e1.trans e2).trans e3)).congrFatal ?_
    simp [h2]
  · have e1 : TraceExt st (updateJob st RestoreStep.STARTING 87
        "Starting server container...") :=
      traceExt_updateJob hA _ (by simpa [stepLe, stepIdx] using hs) hp (by omega)
        (by simp [Terminal])
    refine ((failJob_postA "Failed to start container: engine error" _
        (agrees_updateJob ..)).ofExt e1).congrFatal ?_
    simp [h1, h2]
  · have e1 : TraceExt st (updateJob st RestoreStep.STARTING 92
        "Server container left stopped (was not running before)") :=
      traceExt_updateJob hA _ (by simpa [stepLe, stepIdx] using hs) (by omega) (by omega)
        (by simp [Terminal])
    refine ((stepRestartBackup_postA env _ (agrees_updateJob ..)
        (by simp [updateJob]) (by simp [updateJob, stepIdx])).ofExt e1).congrFatal ?_
    simp [h1]

/-- Step 3 fails exactly when extraction fails or the later start fails. -/
theorem stepExtract_postA (env : Env) (st : ExecState) (hA : Agrees st)
    (hp : st.job.progress ≤ 45) (hs : stepIdx st.job.step ≤ 3) :
    PostA st (stepExtract env st)
      (env.extractOk = false
        ∨ (st.job.container_was_running = true ∧ env.startOk = false)) := by
  simp only [stepExtract]
  split_ifs with h1
  · have e1 : TraceExt st (updateJob st RestoreStep.EXTRACTING 45
        "Extracting backup...") :=
      traceExt_updateJob hA _ (by simpa [stepLe, stepIdx] using hs) hp (by omega)
        (by simp [Terminal])
    have e2 : TraceExt (updateJob st RestoreStep.EXTRACTING 45 "Extracting backup...")
        { updateJob st RestoreStep.EXTRACTING 45 "Extracting backup..." with
          fs := { (updateJob st RestoreStep.EXTRACTING 45 "Extracting backup...").fs with
            dataDirContents := (updateJob st RestoreStep.EXTRACTING 45
              "Extracting backup...").fs.dataDirContents ++ env.archiveFiles } } :=
      traceExt_same (agrees_updateJob ..) rfl rfl rfl
    have e3 : TraceExt
        { updateJob st RestoreStep.EXTRACTING 45 "Extracting backup..." with
          fs := { (updateJob st RestoreStep.EXTRACTING 45 "Extracting backup...").fs with
            dataDirContents := (updateJob st RestoreStep.EXTRACTING 45
              "Extracting backup...").fs.dataDirContents ++ env.archiveFiles } }
        (updateJob { updateJob st RestoreStep.EXTRACTING 45 "Extracting backup..." with
          fs := { (updateJob st RestoreStep.EXTRACTING 45 "Extracting backup...").fs with
            dataDirContents := (updateJob st RestoreStep.EXTRACTING 45
              "Extracting backup...").fs.dataDirContents ++ env.archiveFiles } }
          RestoreStep.EXTRACTING 85 "Backup extracted") :=
      traceExt_updateJob (e2.agrees) _ (by simp [updateJob, stepLe])
        (by simp [updateJob]) (by omega) (by simp [Terminal])
    refine ((stepStart_postA env _ (agrees_updateJob ..) (by simp [updateJob])
        (by simp [updateJob, stepIdx])).ofExt ((e1.trans e2).trans e3)).congrFatal ?_
    simp [updateJob, h1]
  · have e1 : TraceExt st (updateJob st RestoreStep.EXTRACTING 45
        "Extracting backup...") :=
      traceExt_updateJob hA _ (by simpa [stepLe, stepIdx] using hs) hp (by omega)
        (by simp [Terminal])
    refine ((failJob_postA "Extraction failed: archive error" _
        (agrees_updateJob ..)).ofExt e1).congrFatal ?_
    simp at h1
    simp [h1]

/-- Step 2 fails exactly when the data directory is absent after deletion
and cannot be recreated, or a later step fails. Deletion errors themselves
(`ignore_errors=True`) never fail the job. -/
theorem stepClear_postA (env : Env) (st : ExecState) (hA : Agrees st)
    (hp : st.job.progress ≤ 30) (hs : stepIdx st.job.step ≤ 2) :
    PostA st (stepClear env st)
      (((rmtreeIgnoreErrors st.fs env.rmtreeLeftover).dataDirExists = false
          ∧ env.mkdirOk = false)
        ∨ env.extractOk = false
        ∨ (st.job.container_was_running = true ∧ env.startOk = false)) := by
  simp only [stepClear]
  split_ifs with hd hm
  · have e1 : TraceExt st (updateJob st RestoreStep.CLEARING 30 "Removing old data...") :=
      traceExt_updateJob hA _ (by simpa [stepLe, stepIdx] using hs) hp (by omega)
        (by simp [Terminal])
    have e2 : TraceExt (updateJob st RestoreStep.CLEARING 30 "Removing old data...") ({ updateJob st RestoreStep.CLEARING 30 "Removing old data..." with fs := rmtreeIgnoreErrors st.fs env.rmtreeLeftover }) :=
      traceExt_same (agrees_updateJob ..) rfl rfl rfl
    have e3 : TraceExt ({ updateJob st RestoreStep.CLEARING 30 "Removing old data..." with fs := rmtreeIgnoreErrors st.fs env.rmtreeLeftover }) (updateJob ({ updateJob st RestoreStep.CLEARING 30 "Removing old data..." with fs := rmtreeIgnoreErrors st.fs env.rmtreeLeftover }) RestoreStep.CLEARING 40 "Data directory cleared") :=
      traceExt_updateJob (e2.agrees) _ (by simp [updateJob, stepLe])
        (by simp [updateJob]) (by omega) (by simp [Terminal])
    have e4 : TraceExt (updateJob ({ updateJob st RestoreStep.CLEARING 30 "Removing old data..." with fs := rmtreeIgnoreErrors st.fs env.rmtreeLeftover }) RestoreStep.CLEARING 40 "Data directory cleared") ({ updateJob ({ updateJob st RestoreStep.CLEARING 30 "Removing old data..." with fs := rmtreeIgnoreErrors st.fs env.rmtreeLeftover }) RestoreStep.CLEARING 40 "Data directory cleared" with fsAfterClearing := some (updateJob ({ updateJob st RestoreStep.CLEARING 30 "Removing old data..." with fs := rmtreeIgnoreErrors st.fs env.rmtreeLeftover }) RestoreStep.CLEARING 40 "Data directory cleared").fs }) :=
      traceExt_same (agrees_updateJob ..) rfl rfl rfl
    refine ((stepExtract_postA env _ (e4.agrees) (by simp [updateJob])
        (by simp [updateJob, stepIdx])).ofExt (((e1.trans e2).trans e3).trans e4)).congrFatal ?_
    simp [updateJob, hd]
  · have e1 : TraceExt st (updateJob st RestoreStep.CLEARING 30 "Removing old data...") :=
      traceExt_updateJob hA _ (by simpa [stepLe, stepIdx] using hs) hp (by omega)
        (by simp [Terminal])
    have e2 : TraceExt (updateJob st RestoreStep.CLEARING 30 "Removing old data...") ({ updateJob st RestoreStep.CLEARING 30 "Removing old data..." with fs := rmtreeIgnoreErrors st.fs env.rmtreeLeftover }) :=
      traceExt_same (agrees_updateJob ..) rfl rfl rfl
    have e3 : TraceExt ({ updateJob st RestoreStep.CLEARING 30 "Removing old data..." with fs := rmtreeIgnoreErrors st.fs env.rmtreeLeftover }) ({ ({ updateJob st RestoreStep.CLEARING 30 "Removing old data..." with fs := rmtreeIgnoreErrors st.fs env.rmtreeLeftover } : ExecState) with fs := { dataDirExists := true, dataDirContents := [] } }) :=
      traceExt_same (e2.agrees) rfl rfl rfl
    have e4 : TraceExt ({ ({ updateJob st RestoreStep.CLEARING 30 "Removing old data..." with fs := rmtreeIgnoreErrors st.fs env.rmtreeLeftover } : ExecState) with fs := { dataDirExists := true, dataDirContents := [] } }) (updateJob ({ ({ updateJob st RestoreStep.CLEARING 30 "Removing old data..." with fs := rmtreeIgnoreErrors st.fs env.rmtreeLeftover } : ExecState) with fs := { dataDirExists := true, dataDirContents := [] } }) RestoreStep.CLEARING 40 "Data directory cleared") :=
      traceExt_updateJob (e3.agrees) _ (by simp [updateJob, stepLe])
        (by simp [updateJob]) (by omega) (by simp [Terminal])
    have e5 : TraceExt (updateJob ({ ({ updateJob st RestoreStep.CLEARING 30 "Removing old data..." with fs := rmtreeIgnoreErrors st.fs env.rmtreeLeftover } : ExecState) with fs := { dataDirExists := true, dataDirContents := [] } }) RestoreStep.CLEARING 40 "Data directory cleared") ({ updateJob ({ ({ updateJob st RestoreStep.CLEARING 30 "Removing old data..." with fs := rmtreeIgnoreErrors st.fs env.rmtreeLeftover } : ExecState) with fs := { dataDirExists := true, dataDirContents := [] } }) RestoreStep.CLEARING 40 "Data directory cleared" with fsAfterClearing := some (updateJob ({ ({ updateJob st RestoreStep.CLEARING 30 "Removing old data..." with fs := rmtreeIgnoreErrors st.fs env.rmtreeLeftover } : ExecState) with fs := { dataDirExists := true, dataDirContents := [] } }) RestoreStep.CLEARING 40 "Data directory cleared").fs }) :=
      traceExt_same (agrees_updateJob ..) rfl rfl rfl
    refine ((stepExtract_postA env _ (e5.agrees) (by simp [updateJob])
        (by simp [updateJob, stepIdx])).ofExt
      ((((e1.trans e2).trans e3).trans e4).trans e5)).congrFatal ?_
    simp [updateJob, hm]
  · have e1 : TraceExt st (updateJob st RestoreStep.CLEARING 30 "Removing old data...") :=
      traceExt_updateJob hA _ (by simpa [stepLe, stepIdx] using hs) hp (by omega)
        (by simp [Terminal])
    have e2 : TraceExt (updateJob st RestoreStep.CLEARING 30 "Removing old data...") ({ updateJob st RestoreStep.CLEARING 30 "Removing old data..." with fs := rmtreeIgnoreErrors st.fs env.rmtreeLeftover }) :=
      traceExt_same (agrees_updateJob ..) rfl rfl rfl
    refine ((failJob_postA "Failed to create data directory: filesystem error" _
        (e2.agrees)).ofExt (e1.trans e2)).congrFatal ?_
    simp at hd
    simp [hd, hm]

/-- Recording the backup container's probed state, then clearing. -/
theorem afterStop_postA (env : Env) (st : ExecState) (hA : Agrees st)
    (hp : st.job.progress ≤ 30) (hs : stepIdx st.job.step ≤ 2) :
    PostA st (afterStop env st)
      (((rmtreeIgnoreErrors st.fs env.rmtreeLeftover).dataDirExists = false
          ∧ env.mkdirOk = false)
        ∨ env.extractOk = false
        ∨ (st.job.container_was_running = true ∧ env.startOk = false)) := by
  simp only [afterStop]
  have e0 : TraceExt st (setBackupRunning st (isContainerRunning env.backupProbe)) :=
    traceExt_same hA rfl rfl rfl
  refine ((stepClear_postA env _ (e0.agrees) (by simpa [setBackupRunning] using hp)
      (by simpa [setBackupRunning] using hs)).ofExt e0).congrFatal ?_
  simp [setBackupRunning]

/-- Step 1 and the remainder: the workflow from the status check onwards
fails exactly under the fatal conditions of steps 1-4. -/
theorem stepStop_postA (env : Env) (st : ExecState) (hA : Agrees st)
    (hp : st.job.progress ≤ 5) (hs : stepIdx st.job.step ≤ 1) :
    PostA st (stepStop env st)
      ((isContainerRunning env.primaryProbe = true ∧ env.stopOk = false)
        ∨ ((rmtreeIgnoreErrors st.fs env.rmtreeLeftover).dataDirExists = false
            ∧ env.mkdirOk = false)
        ∨ env.extractOk = false
        ∨ (isContainerRunning env.primaryProbe = true ∧ env.startOk = false)) := by
  simp only [stepStop]
  split_ifs with h1 h2
  · have e0 : TraceExt st (setRunning st true) := traceExt_same hA rfl rfl rfl
    have e1 : TraceExt (setRunning st true)
        (updateJob (setRunning st true) RestoreStep.STOPPING 10
          "Stopping server container...") :=
      traceExt_updateJob (e0.agrees) _ (by simpa [setRunning, stepLe, stepIdx] using hs)
        (by simp [setRunning]; omega) (by omega) (by simp [Terminal])
    have e2 : TraceExt
        (updateJob (setRunning st true) RestoreStep.STOPPING 10
          "Stopping server container...")
        (addEvent (updateJob (setRunning st true) RestoreStep.STOPPING 10
          "Stopping server container...") Event.stoppedPrimary) :=
      traceExt_same (agrees_updateJob ..) rfl rfl rfl
    have e3 : TraceExt
        (addEvent (updateJob (setRunning st true) RestoreStep.STOPPING 10
          "Stopping server container...") Event.stoppedPrimary)
        (updateJob (addEvent (updateJob (setRunning st true) RestoreStep.STOPPING 10
          "Stopping server container...") Event.stoppedPrimary)
          RestoreStep.STOPPING 20 "Server container stopped") :=
      traceExt_updateJob (e2.agrees) _ (by simp [updateJob, addEvent, setRunning, stepLe])
        (by simp [updateJob, addEvent]) (by omega) (by simp [Terminal])
    refine ((afterStop_postA env _ (agrees_updateJob ..)
        (by simp [updateJob, addEvent]) (by simp [updateJob, addEvent, setRunning, stepIdx])).ofExt
      (((e0.trans e1).trans e2).trans e3)).congrFatal ?_
    simp [updateJob, addEvent, setRunning, h1, h2]
  · have e0 : TraceExt st (setRunning st true) := traceExt_same hA rfl rfl rfl
    have e1 : TraceExt (setRunning st true)
        (updateJob (setRunning st true) RestoreStep.STOPPING 10
          "Stopping server container...") :=
      traceExt_updateJob (e0.agrees) _ (by simpa [setRunning, stepLe, stepIdx] using hs)
        (by simp [setRunning]; omega) (by omega) (by simp [Terminal])
    refine ((failJob_postA "Failed to stop container: engine error" _
        (agrees_updateJob ..)).ofExt (e0.trans e1)).congrFatal ?_
    simp at h2
    simp [h1, h2]
  · have e0 : TraceExt st (setRunning st false) := traceExt_same hA rfl rfl rfl
    have e1 : TraceExt (setRunning st false)
        (updateJob (setRunning st false) RestoreStep.STOPPING 20
          "Server container not running") :=
      traceExt_updateJob (e0.agrees) _ (by simpa [setRunning, stepLe, stepIdx] using hs)
        (by simp [setRunning]; omega) (by omega) (by simp [Terminal])
    refine ((afterStop_postA env _ (agrees_updateJob ..)
        (by simp [updateJob]) (by simp [updateJob, setRunning, stepIdx])).ofExt
      (e0.trans e1)).congrFatal ?_
    simp at h1
    simp [updateJob, setRunning, h1]

/-- The initial state of a workflow execution for `job0`. -/
def initSt (env : Env) (job0 : RestoreJob) : ExecState :=
  updateJob ⟨job0, [], [], env.initFs, none⟩ RestoreStep.STOPPING 5
    "Checking container status..."

/-- The whole workflow extends the first status update and fails exactly
under the fatal conditions of steps 1-4. -/
theorem executeRestore_postA (env : Env) (job0 : RestoreJob) :
    PostA (initSt env job0) (executeRestore env job0)
      ((isContainerRunning env.primaryProbe = true ∧ env.stopOk = false)
        ∨ ((rmtreeIgnoreErrors env.initFs env.rmtreeLeftover).dataDirExists = false
            ∧ env.mkdirOk = false)
        ∨ env.extractOk = false
        ∨ (isContainerRunning env.primaryProbe = true ∧ env.startOk = false)) := by
  have h := stepStop_postA env (initSt env job0) (by exact agrees_updateJob ..)
    (by simp [initSt, updateJob]) (by simp [initSt, updateJob, stepIdx])
  exact h.congrFatal (by simp [initSt, updateJob])

/-- The disjunction of fatal conditions and the executable `anyFatal` agree. -/
theorem fatal_iff_anyFatal (env : Env) :
    ((isContainerRunning env.primaryProbe = true ∧ env.stopOk = false)
      ∨ ((rmtreeIgnoreErrors env.initFs env.rmtreeLeftover).dataDirExists = false
          ∧ env.mkdirOk = false)
      ∨ env.extractOk = false
      ∨ (isContainerRunning env.primaryProbe = true ∧ env.startOk = false))
    ↔ anyFatal env = true := by
  simp [anyFatal]
  tauto

/-! Section: Preservation of the recorded container flag -/

theorem completeJob_flag (st : ExecState) :
    (completeJob st).1.job.container_was_running = st.job.container_was_running := rfl

theorem failJob_flag (msg : String) (st : ExecState) :
    (failJob msg st).1.job.container_was_running = st.job.container_was_running := rfl

theorem stepWaitReady_flag (env : Env) (st : ExecState) :
    (stepWaitReady env st).1.job.container_was_running
      = st.job.container_was_running := by
  simp only [stepWaitReady]
  split_ifs <;> rfl

theorem stepRestartBackup_flag (env : Env) (st : ExecState) :
    (stepRestartBackup env st).1.job.container_was_running
      = st.job.container_was_running := by
  simp only [stepRestartBackup]
  split_ifs <;> rw [stepWaitReady_flag] <;> simp [updateJob, addEvent]

theorem stepStart_flag (env : Env) (st : ExecState) :
    (stepStart env st).1.job.container_was_running
      = st.job.container_was_running := by
  simp only [stepStart]
  split_ifs
  · rw [stepRestartBackup_flag]; simp [updateJob, addEvent]
  · rw [failJob_flag]; simp [updateJob]
  · rw [stepRestartBackup_flag]; simp [updateJob]

theorem stepExtract_flag (env : Env) (st : ExecState) :
    (stepExtract env st).1.job.container_was_running
      = st.job.container_was_running := by
  simp only [stepExtract]
  split_ifs
  · rw [stepStart_flag]; simp [updateJob]
  · rw [failJob_flag]; simp [updateJob]

theorem stepClear_flag (env : Env) (st : ExecState) :
    (stepClear env st).1.job.container_was_running
      = st.job.container_was_running := by
  simp only [stepClear]
  split_ifs
  · rw [stepExtract_flag]; simp [updateJob]
  · rw [stepExtract_flag]; simp [updateJob]
  · rw [failJob_flag]; simp [updateJob]

theorem afterStop_flag (env : Env) (st : ExecState) :
    (afterStop env st).1.job.container_was_running
      = st.job.container_was_running := by
  simp only [afterStop]
  rw [stepClear_flag]; simp [setBackupRunning]

/-- The recorded flag at the end of any run equals the probed state of the
primary container at the start (the means by which the workflow restores
intent, not merely state). -/
theorem stepStop_flag (env : Env) (st : ExecState) :
    (stepStop env st).1.job.container_was_running
      = isContainerRunning env.primaryProbe := by
  simp only [stepStop]
  split_ifs with h1 h2
  · rw [afterStop_flag]; simp [updateJob, addEvent, setRunning, h1]
  · rw [failJob_flag]; simp [updateJob, setRunning, h1]
  · rw [afterStop_flag]; simp at h1; simp [updateJob, setRunning, h1]

theorem executeRestore_flag (env : Env) (job0 : RestoreJob) :
    (executeRestore env job0).1.job.container_was_running
      = isContainerRunning env.primaryProbe :=
  stepStop_flag env _

/-! Section: Container mutations performed by each phase -/

theorem stepWaitReady_events (env : Env) (st : ExecState) :
    (stepWaitReady env st).1.events = st.events := by
  simp only [stepWaitReady]
  split_ifs <;> rfl

theorem stepRestartBackup_events (env : Env) (st : ExecState) :
    ∃ etl, (stepRestartBackup env st).1.events = st.events ++ etl
      ∧ Event.startedPrimary ∉ etl ∧ Event.stoppedPrimary ∉ etl := by
  simp only [stepRestartBackup]
  split_ifs
  · refine ⟨[Event.restartedBackup], ?_, by simp, by simp⟩
    rw [stepWaitReady_events]
    simp [updateJob, addEvent]
  · refine ⟨[], ?_, by simp, by simp⟩
    rw [stepWaitReady_events]
    simp [updateJob]
  · refine ⟨[], ?_, by simp, by simp⟩
    rw [stepWaitReady_events]
    simp

theorem stepStart_events (env : Env) (st : ExecState) :
    ∃ etl, (stepStart env st).1.events = st.events ++ etl
      ∧ (Event.startedPrimary ∈ etl
          ↔ st.job.container_was_running = true ∧ env.startOk = true)
      ∧ Event.stoppedPrimary ∉ etl := by
  simp only [stepStart]
  split_ifs with h1 h2
  · obtain ⟨etl, he, hstart, hstop⟩ := stepRestartBackup_events env
      (updateJob (addEvent (updateJob st RestoreStep.STARTING 87
        "Starting server container...") Event.startedPrimary)
        RestoreStep.STARTING 92 "Server container started")
    refine ⟨Event.startedPrimary :: etl, ?_, by simp [h1, h2], ?_⟩
    · rw [he]; simp [updateJob, addEvent]
    · simp [hstop]
  · refine ⟨[], by simp [failJob, updateJob], by simp [h2], by simp⟩
  · obtain ⟨etl, he, hstart, hstop⟩ := stepRestartBackup_events env
      (updateJob st RestoreStep.STARTING 92
        "Server container left stopped (was not running before)")
    refine ⟨etl, ?_, by simp [h1, hstart], hstop⟩
    rw [he]; simp [updateJob]

theorem stepExtract_events (env : Env) (st : ExecState) :
    ∃ etl, (stepExtract env st).1.events = st.events ++ etl
      ∧ (Event.startedPrimary ∈ etl
          ↔ env.extractOk = true ∧ st.job.container_was_running = true
            ∧ env.startOk = true)
      ∧ Event.stoppedPrimary ∉ etl := by
  simp only [stepExtract]
  split_ifs with h1
  · obtain ⟨etl, he, hstart, hstop⟩ := stepStart_events env
      (updateJob { updateJob st RestoreStep.EXTRACTING 45 "Extracting backup..." with
        fs := { (updateJob st RestoreStep.EXTRACTING 45 "Extracting backup...").fs with
          dataDirContents := (updateJob st RestoreStep.EXTRACTING 45
            "Extracting backup...").fs.dataDirContents ++ env.archiveFiles } }
        RestoreStep.EXTRACTING 85 "Backup extracted")
    refine ⟨etl, ?_, ?_, hstop⟩
    · rw [he]; simp [updateJob]
    · rw [hstart]; simp [updateJob, h1]
  · refine ⟨[], by simp [failJob, updateJob], by simp [h1], by simp⟩

theorem stepClear_events (env : Env) (st : ExecState) :
    ∃ etl, (stepClear env st).1.events = st.events ++ etl
      ∧ (Event.startedPrimary ∈ etl
          ↔ ((rmtreeIgnoreErrors st.fs env.rmtreeLeftover).dataDirExists = true
              ∨ env.mkdirOk = true)
            ∧ env.extractOk = true ∧ st.job.container_was_running = true
            ∧ env.startOk = true)
      ∧ Event.stoppedPrimary ∉ etl := by
  simp only [stepClear]
  split_ifs with hd hm
  · obtain ⟨etl, he, hstart, hstop⟩ := stepExtract_events env
      { updateJob { updateJob st RestoreStep.CLEARING 30 "Removing old data..." with
          fs := rmtreeIgnoreErrors st.fs env.rmtreeLeftover }
          RestoreStep.CLEARING 40 "Data directory cleared" with
        fsAfterClearing := some (updateJob { updateJob st RestoreStep.CLEARING 30
          "Removing old data..." with
          fs := rmtreeIgnoreErrors st.fs env.rmtreeLeftover }
          RestoreStep.CLEARING 40 "Data directory cleared").fs }
    refine ⟨etl, ?_, ?_, hstop⟩
    · rw [he]; simp [updateJob]
    · rw [hstart]; simp [updateJob, hd]
  · obtain ⟨etl, he, hstart, hstop⟩ := stepExtract_events env
      { updateJob { ({ updateJob st RestoreStep.CLEARING 30 "Removing old data..." with
          fs := rmtreeIgnoreErrors st.fs env.rmtreeLeftover } : ExecState) with
          fs := { dataDirExists := true, dataDirContents := [] } }
          RestoreStep.CLEARING 40 "Data directory cleared" with
        fsAfterClearing := some (updateJob { ({ updateJob st RestoreStep.CLEARING 30
          "Removing old data..." with
          fs := rmtreeIgnoreErrors st.fs env.rmtreeLeftover } : ExecState) with
          fs := { dataDirExists := true, dataDirContents := [] } }
          RestoreStep.CLEARING 40 "Data directory cleared").fs }
    refine ⟨etl, ?_, ?_, hstop⟩
    · rw [he]; simp [updateJob]
    · rw [hstart]; simp [updateJob, hm]
  · refine ⟨[], by simp [failJob, updateJob], ?_, by simp⟩
    simp at hd
    simp [hd, hm]

theorem afterStop_events (env : Env) (st : ExecState) :
    ∃ etl, (afterStop env st).1.events = st.events ++ etl
      ∧ (Event.startedPrimary ∈ etl
          ↔ ((rmtreeIgnoreErrors st.fs env.rmtreeLeftover).dataDirExists = true
              ∨ env.mkdirOk = true)
            ∧ env.extractOk = true ∧ st.job.container_was_running = true
            ∧ env.startOk = true)
      ∧ Event.stoppedPrimary ∉ etl := by
  simp only [afterStop]
  obtain ⟨etl, he, hstart, hstop⟩ := stepClear_events env
    (setBackupRunning st (isContainerRunning env.backupProbe))
  refine ⟨etl, ?_, ?_, hstop⟩
  · rw [he]; simp [setBackupRunning]
  · rw [hstart]; simp [setBackupRunning]

theorem stepStop_events (env : Env) (st : ExecState) :
    ∃ etl, (stepStop env st).1.events = st.events ++ etl
      ∧ (Event.startedPrimary ∈ etl
          ↔ isContainerRunning env.primaryProbe = true ∧ env.stopOk = true
            ∧ ((rmtreeIgnoreErrors st.fs env.rmtreeLeftover).dataDirExists = true
                ∨ env.mkdirOk = true)
            ∧ env.extractOk = true ∧ env.startOk = true)
      ∧ (Event.stoppedPrimary ∈ etl
          ↔ isContainerRunning env.primaryProbe = true ∧ env.stopOk = true) := by
  simp only [stepStop]
  split_ifs with h1 h2
  · obtain ⟨etl, he, hstart, hstop⟩ := afterStop_events env
      (updateJob (addEvent (updateJob (setRunning st true) RestoreStep.STOPPING 10
        "Stopping server container...") Event.stoppedPrimary)
        RestoreStep.STOPPING 20 "Server container stopped")
    refine ⟨Event.stoppedPrimary :: etl, ?_, ?_, ?_⟩
    · rw [he]; simp [updateJob, addEvent, setRunning]
    · rw [show (Event.startedPrimary ∈ Event.stoppedPrimary :: etl)
          = (Event.startedPrimary ∈ etl) by simp]
      rw [hstart]; simp [updateJob, addEvent, setRunning, h1, h2]
    · simp [h1, h2]
  · refine ⟨[], by simp [failJob, updateJob, addEvent, setRunning], by simp [h2], by simp [h2]⟩
  · obtain ⟨etl, he, hstart, hstop⟩ := afterStop_events env
      (updateJob (setRunning st false) RestoreStep.STOPPING 20
        "Server container not running")
    simp at h1
    refine ⟨etl, ?_, ?_, by simp [hstop, h1]⟩
    · rw [he]; simp [updateJob, setRunning]
    · rw [hstart]; simp [updateJob, setRunning, h1]

/-- Container mutations over a whole run: the primary container is started
exactly when it was probed running, the stop succeeded, the directory reset
succeeded, extraction succeeded and the start call succeeded; it is stopped
exactly when it was probed running and the stop call succeeded. -/
theorem executeRestore_events (env : Env) (job0 : RestoreJob) :
    (Event.startedPrimary ∈ (executeRestore env job0).1.events
      ↔ isContainerRunning env.primaryProbe = true ∧ env.stopOk = true
        ∧ ((rmtreeIgnoreErrors env.initFs env.rmtreeLeftover).dataDirExists = true
            ∨ env.mkdirOk = true)
        ∧ env.extractOk = true ∧ env.startOk = true)
    ∧ (Event.stoppedPrimary ∈ (executeRestore env job0).1.events
      ↔ isContainerRunning env.primaryProbe = true ∧ env.stopOk = true) := by
  obtain ⟨etl, he, hstart, hstop⟩ := stepStop_events env (initSt env job0)
  have hev : (executeRestore env job0).1.events = etl := by
    rw [show executeRestore env job0 = stepStop env (initSt env job0) from rfl, he]
    simp [initSt, updateJob]
  rw [hev]
  refine ⟨?_, hstop⟩
  rw [hstart]
  simp [initSt, updateJob]

/-! Section: WAITING_READY is reported only when the primary container ran -/

theorem stepWaitReady_wr (env : Env) (st : ExecState) :
    RestoreStep.WAITING_READY ∈ stepsOf (stepWaitReady env st).1 →
      RestoreStep.WAITING_READY ∈ stepsOf st
        ∨ st.job.container_was_running = true := by
  simp only [stepWaitReady]
  split_ifs with h1 h2
  · intro _; exact Or.inr h1
  · intro _; exact Or.inr h1
  · intro h
    have : stepsOf (completeJob st).1 = stepsOf st ++ [RestoreStep.COMPLETED] := by
      simp [stepsOf, completeJob, updateJob]
    rw [this] at h
    rcases List.mem_append.1 h with h | h
    · exact Or.inl h
    · simp at h

theorem stepRestartBackup_wr (env : Env) (st : ExecState) :
    RestoreStep.WAITING_READY ∈ stepsOf (stepRestartBackup env st).1 →
      RestoreStep.WAITING_READY ∈ stepsOf st
        ∨ st.job.container_was_running = true := by
  simp only [stepRestartBackup]
  split_ifs with h1 h2 <;> intro h <;>
    rcases stepWaitReady_wr env _ h with h' | h'
  · rw [show stepsOf (updateJob (addEvent (updateJob st RestoreStep.STARTING 93
        "Restarting backup container...") Event.restartedBackup)
        RestoreStep.STARTING 94 "Backup container restarted")
      = stepsOf st ++ [RestoreStep.STARTING, RestoreStep.STARTING] by
        simp [stepsOf, updateJob, addEvent]] at h'
    rcases List.mem_append.1 h' with h' | h'
    · exact Or.inl h'
    · simp at h'
  · exact Or.inr (by simpa [updateJob, addEvent] using h')
  · rw [show stepsOf (updateJob (updateJob st RestoreStep.STARTING 93
        "Restarting backup container...") RestoreStep.STARTING 94
        "Warning: Could not restart backup container")
      = stepsOf st ++ [RestoreStep.STARTING, RestoreStep.STARTING] by
        simp [stepsOf, updateJob]] at h'
    rcases List.mem_append.1 h' with h' | h'
    · exact Or.inl h'
    · simp at h'
  · exact Or.inr (by simpa [updateJob] using h')
  · exact Or.inl h'
  · exact Or.inr h'

theorem stepStart_wr (env : Env) (st : ExecState) :
    RestoreStep.WAITING_READY ∈ stepsOf (stepStart env st).1 →
      RestoreStep.WAITING_READY ∈ stepsOf st
        ∨ st.job.container_was_running = true := by
  simp only [stepStart]
  split_ifs with h1 h2 <;> intro h
  · exact Or.inr h1
  · exact Or.inr h1
  · rcases stepRestartBackup_wr env _ h with h' | h'
    · rw [show stepsOf (updateJob st RestoreStep.STARTING 92
          "Server container left stopped (was not running before)")
        = stepsOf st ++ [RestoreStep.STARTING] by simp [stepsOf, updateJob]] at h'
      rcases List.mem_append.1 h' with h' | h'
      · exact Or.inl h'
      · simp at h'
    · exact Or.inr (by simpa [updateJob] using h')

theorem stepExtract_wr (env : Env) (st : ExecState) :
    RestoreStep.WAITING_READY ∈ stepsOf (stepExtract env st).1 →
      RestoreStep.WAITING_READY ∈ stepsOf st
        ∨ st.job.container_was_running = true := by
  simp only [stepExtract]
  split_ifs with h1 <;> intro h
  · rcases stepStart_wr env _ h with h' | h'
    · rw [show stepsOf (updateJob { updateJob st RestoreStep.EXTRACTING 45
            "Extracting backup..." with
          fs := { (updateJob st RestoreStep.EXTRACTING 45 "Extracting backup...").fs with
            dataDirContents := (updateJob st RestoreStep.EXTRACTING 45
              "Extracting backup...").fs.dataDirContents ++ env.archiveFiles } }
          RestoreStep.EXTRACTING 85 "Backup extracted")
        = stepsOf st ++ [RestoreStep.EXTRACTING, RestoreStep.EXTRACTING] by
          simp [stepsOf, updateJob]] at h'
      rcases List.mem_append.1 h' with h' | h'
      · exact Or.inl h'
      · simp at h'
    · exact Or.inr (by simpa [updateJob] using h')
  · rw [show stepsOf (failJob "Extraction failed: archive error"
        (updateJob st RestoreStep.EXTRACTING 45 "Extracting backup...")).1
      = stepsOf st ++ [RestoreStep.EXTRACTING, RestoreStep.FAILED] by
        simp [stepsOf, failJob, updateJob]] at h
    rcases List.mem_append.1 h with h | h
    · exact Or.inl h
    · simp at h

theorem stepClear_wr (env : Env) (st : ExecState) :
    RestoreStep.WAITING_READY ∈ stepsOf (stepClear env st).1 →
      RestoreStep.WAITING_READY ∈ stepsOf st
        ∨ st.job.container_was_running = true := by
  simp only [stepClear]
  split_ifs with hd hm <;> intro h
  · rcases stepExtract_wr env _ h with h' | h'
    · rw [show stepsOf ({ updateJob ({ updateJob st RestoreStep.CLEARING 30 "Removing old data..." with fs := rmtreeIgnoreErrors st.fs env.rmtreeLeftover }) RestoreStep.CLEARING 40 "Data directory cleared" with fsAfterClearing := some (updateJob ({ updateJob st RestoreStep.CLEARING 30 "Removing old data..." with fs := rmtreeIgnoreErrors st.fs env.rmtreeLeftover }) RestoreStep.CLEARING 40 "Data directory cleared").fs })
          = stepsOf st ++ [RestoreStep.CLEARING, RestoreStep.CLEARING] by
            simp [stepsOf, updateJob]] at h'
      rcases List.mem_append.1 h' with h' | h'
      · exact Or.inl h'
      · simp at h'
    · exact Or.inr (by simpa [updateJob] using h')
  · rcases stepExtract_wr env _ h with h' | h'
    · rw [show stepsOf ({ updateJob ({ ({ updateJob st RestoreStep.CLEARING 30 "Removing old data..." with fs := rmtreeIgnoreErrors st.fs env.rmtreeLeftover } : ExecState) with fs := { dataDirExists := true, dataDirContents := [] } }) RestoreStep.CLEARING 40 "Data directory cleared" with fsAfterClearing := some (updateJob ({ ({ updateJob st RestoreStep.CLEARING 30 "Removing old data..." with fs := rmtreeIgnoreErrors st.fs env.rmtreeLeftover } : ExecState) with fs := { dataDirExists := true, dataDirContents := [] } }) RestoreStep.CLEARING 40 "Data directory cleared").fs })
          = stepsOf st ++ [RestoreStep.CLEARING, RestoreStep.CLEARING] by
            simp [stepsOf, updateJob]] at h'
      rcases List.mem_append.1 h' with h' | h'
      · exact Or.inl h'
      · simp at h'
    · exact Or.inr (by simpa [updateJob] using h')
  · rw [show stepsOf (failJob "Failed to create data directory: filesystem error"
        ({ updateJob st RestoreStep.CLEARING 30 "Removing old data..." with fs := rmtreeIgnoreErrors st.fs env.rmtreeLeftover })).1
      = stepsOf st ++ [RestoreStep.CLEARING, RestoreStep.FAILED] by
        simp [stepsOf, failJob, updateJob]] at h
    rcases List.mem_append.1 h with h | h
    · exact Or.inl h
    · simp at h

theorem afterStop_wr (env : Env) (st : ExecState) :
    RestoreStep.WAITING_READY ∈ stepsOf (afterStop env st).1 →
      RestoreStep.WAITING_READY ∈ stepsOf st
        ∨ st.job.container_was_running = true := by
  simp only [afterStop]
  intro h
  rcases stepClear_wr env _ h with h' | h'
  · exact Or.inl (by simpa [stepsOf, setBackupRunning] using h')
  · exact Or.inr (by simpa [setBackupRunning] using h')

theorem stepStop_wr (env : Env) (st : ExecState) :
    RestoreStep.WAITING_READY ∈ stepsOf (stepStop env st).1 →
      RestoreStep.WAITING_READY ∈ stepsOf st
        ∨ isContainerRunning env.primaryProbe = true := by
  simp only [stepStop]
  split_ifs with h1 h2 <;> intro h
  · exact Or.inr h1
  · exact Or.inr h1
  · rcases afterStop_wr env _ h with h' | h'
    · rw [show stepsOf (updateJob (setRunning st false) RestoreStep.STOPPING 20
          "Server container not running")
        = stepsOf st ++ [RestoreStep.STOPPING] by
          simp [stepsOf, updateJob, setRunning]] at h'
      rcases List.mem_append.1 h' with h' | h'
      · exact Or.inl h'
      · simp at h'
    · simp [updateJob, setRunning] at h'

/-- WAITING_READY is reported only in runs where the primary container was
probed running. -/
theorem executeRestore_wr (env : Env) (job0 : RestoreJob) :
    RestoreStep.WAITING_READY ∈ stepsOf (executeRestore env job0).1 →
      isContainerRunning env.primaryProbe = true := by
  intro h
  rcases stepStop_wr env (initSt env job0) h with h' | h'
  · simp [stepsOf, initSt, updateJob] at h'
  · exact h'

/-! Section: The readiness-timeout message -/

/-- The update reported when the readiness check does not find the marker
(timeout or log read error), line 237-239. -/
def timeoutUpd : Update :=
  ⟨RestoreStep.WAITING_READY, 99,
    "Server started (ready check timed out - may still be loading)"⟩

theorem stepWaitReady_msg (env : Env) (st : ExecState)
    (h1 : st.job.container_was_running = true)
    (h2 : readyFound env.ready = false) :
    timeoutUpd ∈ (stepWaitReady env st).1.updates := by
  simp only [stepWaitReady]
  rw [if_pos h1, if_neg (by simp [h2])]
  simp [completeJob, updateJob, timeoutUpd]

theorem stepRestartBackup_msg (env : Env) (st : ExecState)
    (h1 : st.job.container_was_running = true)
    (h2 : readyFound env.ready = false) :
    timeoutUpd ∈ (stepRestartBackup env st).1.updates := by
  simp only [stepRestartBackup]
  split_ifs with hb hr
  · exact stepWaitReady_msg env _ (by simp [updateJob, addEvent, h1]) h2
  · exact stepWaitReady_msg env _ (by simp [updateJob, h1]) h2
  · exact stepWaitReady_msg env _ h1 h2

theorem stepStart_msg (env : Env) (st : ExecState)
    (h1 : st.job.container_was_running = true)
    (hstart : env.startOk = true) (h2 : readyFound env.ready = false) :
    timeoutUpd ∈ (stepStart env st).1.updates := by
  simp only [stepStart]
  split_ifs
  exact stepRestartBackup_msg env _ (by simp [updateJob, addEvent, h1]) h2

theorem stepExtract_msg (env : Env) (st : ExecState)
    (hex : env.extractOk = true) (h1 : st.job.container_was_running = true)
    (hstart : env.startOk = true) (h2 : readyFound env.ready = false) :
    timeoutUpd ∈ (stepExtract env st).1.updates := by
  simp only [stepExtract]
  split_ifs
  exact stepStart_msg env _ (by simp [updateJob, h1]) hstart h2

theorem stepClear_msg (env : Env) (st : ExecState)
    (hclear : (rmtreeIgnoreErrors st.fs env.rmtreeLeftover).dataDirExists = true
      ∨ env.mkdirOk = true)
    (hex : env.extractOk = true) (h1 : st.job.container_was_running = true)
    (hstart : env.startOk = true) (h2 : readyFound env.ready = false) :
    timeoutUpd ∈ (stepClear env st).1.updates := by
  simp only [stepClear]
  split_ifs with hd hm
  · exact stepExtract_msg env _ hex (by simp [updateJob, h1]) hstart h2
  · exact stepExtract_msg env _ hex (by simp [updateJob, h1]) hstart h2
  · rcases hclear with hc | hc
    · exact absurd hc hd
    · exact absurd hc hm

theorem afterStop_msg (env : Env) (st : ExecState)
    (hclear : (rmtreeIgnoreErrors st.fs env.rmtreeLeftover).dataDirExists = true
      ∨ env.mkdirOk = true)
    (hex : env.extractOk = true) (h1 : st.job.container_was_running = true)
    (hstart : env.startOk = true) (h2 : readyFound env.ready = false) :
    timeoutUpd ∈ (afterStop env st).1.updates := by
  simp only [afterStop]
  exact stepClear_msg env _ (by simpa [setBackupRunning] using hclear) hex
    (by simp [setBackupRunning, h1]) hstart h2

theorem stepStop_msg (env : Env) (st : ExecState)
    (hrun : isContainerRunning env.primaryProbe = true)
    (hstop : env.stopOk = true)
    (hclear : (rmtreeIgnoreErrors st.fs env.rmtreeLeftover).dataDirExists = true
      ∨ env.mkdirOk = true)
    (hex : env.extractOk = true) (hstart : env.startOk = true)
    (h2 : readyFound env.ready = false) :
    timeoutUpd ∈ (stepStop env st).1.updates := by
  simp only [stepStop]
  split_ifs
  exact afterStop_msg env _
    (by simpa [updateJob, addEvent, setRunning] using hclear) hex
    (by simp [updateJob, addEvent, setRunning]) hstart h2

/-- When the primary container was probed running, steps 1-4 all succeed and
the readiness marker is not found, the run reports the timeout message
rather than failing. -/
theorem executeRestore_msg (env : Env) (job0 : RestoreJob)
    (hrun : isContainerRunning env.primaryProbe = true)
    (hstop : env.stopOk = true)
    (hclear : (rmtreeIgnoreErrors env.initFs env.rmtreeLeftover).dataDirExists = true
      ∨ env.mkdirOk = true)
    (hex : env.extractOk = true) (hstart : env.startOk = true)
    (h2 : readyFound env.ready = false) :
    timeoutUpd ∈ (executeRestore env job0).1.updates :=
  stepStop_msg env (initSt env job0) hrun hstop
    (by simpa [initSt, updateJob] using hclear) hex hstart h2

/-! Section: The data-directory snapshot taken at the end of CLEARING -/

theorem stepWaitReady_fsac (env : Env) (st : ExecState) :
    (stepWaitReady env st).1.fsAfterClearing = st.fsAfterClearing := by
  simp only [stepWaitReady]
  split_ifs <;> rfl

theorem stepRestartBackup_fsac (env : Env) (st : ExecState) :
    (stepRestartBackup env st).1.fsAfterClearing = st.fsAfterClearing := by
  simp only [stepRestartBackup]
  split_ifs <;> rw [stepWaitReady_fsac] <;> rfl

theorem stepStart_fsac (env : Env) (st : ExecState) :
    (stepStart env st).1.fsAfterClearing = st.fsAfterClearing := by
  simp only [stepStart]
  split_ifs
  · rw [stepRestartBackup_fsac]; rfl
  · rfl
  · rw [stepRestartBackup_fsac]; rfl

theorem stepExtract_fsac (env : Env) (st : ExecState) :
    (stepExtract env st).1.fsAfterClearing = st.fsAfterClearing := by
  simp only [stepExtract]
  split_ifs
  · rw [stepStart_fsac]; rfl
  · rfl

/-- The snapshot written by the CLEARING phase: either the directory
survived deletion (dir present, leftover contents), or it was recreated
empty; if neither is possible the phase fails and leaves no snapshot. -/
theorem stepClear_fsac (env : Env) (st : ExecState) :
    ((rmtreeIgnoreErrors st.fs env.rmtreeLeftover).dataDirExists = true
      ∧ (stepClear env st).1.fsAfterClearing
        = some (rmtreeIgnoreErrors st.fs env.rmtreeLeftover))
    ∨ ((rmtreeIgnoreErrors st.fs env.rmtreeLeftover).dataDirExists = false
      ∧ env.mkdirOk = true
      ∧ (stepClear env st).1.fsAfterClearing
        = some { dataDirExists := true, dataDirContents := [] })
    ∨ ((rmtreeIgnoreErrors st.fs env.rmtreeLeftover).dataDirExists = false
      ∧ env.mkdirOk = false
      ∧ (stepClear env st).1.fsAfterClearing = st.fsAfterClearing) := by
  simp only [stepClear]
  split_ifs with hd hm
  · refine Or.inl ⟨hd, ?_⟩
    rw [stepExtract_fsac]; rfl
  · refine Or.inr (Or.inl ⟨by simpa using hd, hm, ?_⟩)
    rw [stepExtract_fsac]; rfl
  · exact Or.inr (Or.inr ⟨by simpa using hd, by simpa using hm, rfl⟩)

theorem afterStop_fsac (env : Env) (st : ExecState) :
    ((rmtreeIgnoreErrors st.fs env.rmtreeLeftover).dataDirExists = true
      ∧ (afterStop env st).1.fsAfterClearing
        = some (rmtreeIgnoreErrors st.fs env.rmtreeLeftover))
    ∨ ((rmtreeIgnoreErrors st.fs env.rmtreeLeftover).dataDirExists = false
      ∧ env.mkdirOk = true
      ∧ (afterStop env st).1.fsAfterClearing
        = some { dataDirExists := true, dataDirContents := [] })
    ∨ ((rmtreeIgnoreErrors st.fs env.rmtreeLeftover).dataDirExists = false
      ∧ env.mkdirOk = false
      ∧ (afterStop env st).1.fsAfterClearing = st.fsAfterClearing) := by
  simp only [afterStop]
  rcases stepClear_fsac env (setBackupRunning st (isContainerRunning env.backupProbe))
    with ⟨h1, h2⟩ | ⟨h1, h2, h3⟩ | ⟨h1, h2, h3⟩
  · exact Or.inl ⟨by simpa [setBackupRunning] using h1,
      by simpa [setBackupRunning] using h2⟩
  · exact Or.inr (Or.inl ⟨by simpa [setBackupRunning] using h1, h2,
      by simpa [setBackupRunning] using h3⟩)
  · exact Or.inr (Or.inr ⟨by simpa [setBackupRunning] using h1, h2,
      by simpa [setBackupRunning] using h3⟩)

/-- The snapshot over a whole run: absent (the job failed before or during
CLEARING), the deletion-survivor directory, or a freshly created empty
directory. -/
theorem executeRestore_fsac (env : Env) (job0 : RestoreJob) :
    (executeRestore env job0).1.fsAfterClearing = none
    ∨ ((rmtreeIgnoreErrors env.initFs env.rmtreeLeftover).dataDirExists = true
      ∧ (executeRestore env job0).1.fsAfterClearing
        = some (rmtreeIgnoreErrors env.initFs env.rmtreeLeftover))
    ∨ (env.mkdirOk = true
      ∧ (executeRestore env job0).1.fsAfterClearing
        = some { dataDirExists := true, dataDirContents := [] }) := by
  rw [show executeRestore env job0 = stepStop env (initSt env job0) from rfl]
  simp only [stepStop]
  split_ifs with h1 h2
  · rcases afterStop_fsac env (updateJob (addEvent (updateJob (setRunning
        (initSt env job0) true) RestoreStep.STOPPING 10
        "Stopping server container...") Event.stoppedPrimary)
        RestoreStep.STOPPING 20 "Server container stopped")
      with ⟨ha, hb⟩ | ⟨ha, hb, hc⟩ | ⟨ha, hb, hc⟩
    · exact Or.inr (Or.inl ⟨ha, hb⟩)
    · exact Or.inr (Or.inr ⟨hb, hc⟩)
    · exact Or.inl (by rw [hc]; rfl)
  · exact Or.inl rfl
  · rcases afterStop_fsac env (updateJob (setRunning (initSt env job0) false)
        RestoreStep.STOPPING 20 "Server container not running")
      with ⟨ha, hb⟩ | ⟨ha, hb, hc⟩ | ⟨ha, hb, hc⟩
    · exact Or.inr (Or.inl ⟨ha, hb⟩)
    · exact Or.inr (Or.inr ⟨hb, hc⟩)
    · exact Or.inl (by rw [hc]; rfl)

/-- If the directory is absent after deletion and recreation fails, no
snapshot is taken (and, by `executeRestore_postA`, the job fails). -/
theorem executeRestore_fsac_fail (env : Env) (job0 : RestoreJob)
    (hd : (rmtreeIgnoreErrors env.initFs env.rmtreeLeftover).dataDirExists = false)
    (hm : env.mkdirOk = false) :
    (executeRestore env job0).1.fsAfterClearing = none := by
  rcases executeRestore_fsac env job0 with h | ⟨h1, h2⟩ | ⟨h1, h2⟩
  · exact h
  · rw [hd] at h1; exact absurd h1 (by simp)
  · rw [hm] at h1; exact absurd h1 (by simp)

/-! Section: Archive extraction: the tar `data` filter path check

`RestoreService._extract_backup` (lines 270-273) opens the archive and calls
`tar.extractall(path=data_dir, filter="data")`. The `data` filter strips a
leading slash from each member name, resolves the name against the
destination directory (collapsing `.` and `..` components the way
`os.path.realpath` does), and raises on any member whose resolved path is
not under the destination; with the default `errorlevel`, the first such
member aborts the extraction. Paths are modelled as component lists of an
absolute path. -/

/-- One step of path normalization: empty and `.` components are dropped,
`..` removes the previous component (at the root it is a no-op, as in
`realpath`), and any other component is appended. -/
def normStep (acc : List String) (comp : String) : List String :=
  if comp = "" then acc
  else if comp = "." then acc
  else if comp = ".." then acc.dropLast
  else acc ++ [comp]

/-- Normalize an absolute path given as components. -/
def normalizeAbs (comps : List String) : List String := comps.foldl normStep []

/-- An archive member name: whether it was written absolute, and its
components. -/
structure TarEntry where
  isAbs : Bool
  comps : List String
  deriving DecidableEq, Repr

/-- The `data` filter path handling: a leading slash is stripped (making the
name relative), the name is resolved under the destination, and the member
is rejected (`none`) unless the destination is a prefix of the resolved
path. -/
def dataFilterResolve (dest : List String) (e : TarEntry) : Option (List String) :=
  let target := normalizeAbs (dest ++ e.comps)
  if dest.isPrefixOf target then some target else none

/-- An entry escapes when the filter rejects it. -/
def escapesDest (dest : List String) (e : TarEntry) : Bool :=
  (dataFilterResolve dest e).isNone

/-- `extractall` with the `data` filter: members are processed in order;
an accepted member is written at its resolved path, a rejected member
raises, aborting the extraction (no further member is written). Returns the
written paths and whether extraction completed without error. -/
def extractAll (dest : List String) : List TarEntry → List (List String) × Bool
  | [] => ([], true)
  | e :: rest =>
    match dataFilterResolve dest e with
    | none => ([], false)
    | some p =>
      let r := extractAll dest rest
      (p :: r.1, r.2)

theorem dataFilterResolve_isPrefix {dest : List String} {e : TarEntry}
    {p : List String} (h : dataFilterResolve dest e = some p) :
    dest.isPrefixOf p = true := by
  simp only [dataFilterResolve] at h
  split_ifs at h with hp
  cases h
  exact hp

/-- Every path written by extraction lies under the destination directory. -/
theorem extractAll_written_under (dest : List String) (entries : List TarEntry) :
    ∀ p ∈ (extractAll dest entries).1, dest.isPrefixOf p = true := by
  induction entries with
  | nil => intro p hp; simp [extractAll] at hp
  | cons e rest ih =>
    intro p hp
    unfold extractAll at hp
    cases hres : dataFilterResolve dest e with
    | none => rw [hres] at hp; simp at hp
    | some q =>
      rw [hres] at hp
      simp at hp
      rcases hp with hp | hp
      · rw [hp]; exact dataFilterResolve_isPrefix hres
      · exact ih p hp

/-- If any member escapes the destination, extraction errors out. -/
theorem extractAll_escape_fails (dest : List String) (entries : List TarEntry)
    (h : ∃ e ∈ entries, escapesDest dest e = true) :
    (extractAll dest entries).2 = false := by
  induction entries with
  | nil => simp at h
  | cons e rest ih =>
    unfold extractAll
    cases hres : dataFilterResolve dest e with
    | none => simp
    | some q =>
      simp only
      rcases h with ⟨e', he', hesc⟩
      rcases List.mem_cons.1 he' with rfl | he'
      · unfold escapesDest at hesc
        rw [hres] at hesc
        simp at hesc
      · exact ih ⟨e', he', hesc⟩

/-- An escaping member is itself never written, even in part. -/
theorem extractAll_escape_not_written (dest : List String)
    (entries : List TarEntry) (e : TarEntry) (hesc : escapesDest dest e = true) :
    ∀ p ∈ (extractAll dest entries).1, dataFilterResolve dest e ≠ some p := by
  intro p _ hcon
  unfold escapesDest at hesc
  rw [hcon] at hesc
  simp at hesc

/-! Section: Progress notification sink (spec section 4.3) -/

/-- The snapshot delivered to a progress sink. -/
structure Snapshot where
  job_id : String
  step : RestoreStep
  progress : Nat
  message : String
  error : Option String
  deriving DecidableEq, Repr

/-- Modelled from the spec: the sink registry and the sink-delivering update
path. `register_progress_callback` / `unregister_progress_callback` and the
update path that pushes snapshots to the registered callback are invoked
from `app/routers/restore.py` (lines 105-114, 143) but are not defined in
`app/services/restore_service.py` under `src/`; per spec section 4.3,
`UpdateJob` mutates the job fields, then best-effort delivers a snapshot to
the sink registered for that job id, if any, and a delivery failure is
swallowed. A sink is a function that may fail; `none` means no sink is
registered for the job id. -/
def updateJobWithSink (sink : Option (Snapshot → Except String Unit))
    (job : RestoreJob) (step : RestoreStep) (progress : Nat)
    (message : String) : RestoreJob × Option Snapshot :=
  let job1 := { job with step := step, progress := progress, message := message }
  let snap : Snapshot := ⟨job1.id, job1.step, job1.progress, job1.message, job1.error⟩
  match sink with
  | none => (job1, none)
  | some f =>
    let _ := f snap
    (job1, some snap)

/-! Section: The CLEARING step is always reported once step 1 passes -/

theorem stepClear_mem_clearing (env : Env) (st : ExecState) :
    RestoreStep.CLEARING ∈ stepsOf (stepClear env st).1 := by
  simp only [stepClear]
  split_ifs with hd hm
  · obtain ⟨tl, htl⟩ := (stepExtract_postA env
      { updateJob { updateJob st RestoreStep.CLEARING 30 "Removing old data..." with
          fs := rmtreeIgnoreErrors st.fs env.rmtreeLeftover }
          RestoreStep.CLEARING 40 "Data directory cleared" with
        fsAfterClearing := some (updateJob { updateJob st RestoreStep.CLEARING 30
          "Removing old data..." with
          fs := rmtreeIgnoreErrors st.fs env.rmtreeLeftover }
          RestoreStep.CLEARING 40 "Data directory cleared").fs }
      (agrees_updateJob ..) (by simp [updateJob]) (by simp [updateJob, stepIdx])).upd
    refine List.mem_map.2 ⟨⟨RestoreStep.CLEARING, 30, "Removing old data..."⟩, ?_, rfl⟩
    rw [htl]
    simp [updateJob]
  · obtain ⟨tl, htl⟩ := (stepExtract_postA env
      { updateJob { ({ updateJob st RestoreStep.CLEARING 30 "Removing old data..." with
          fs := rmtreeIgnoreErrors st.fs env.rmtreeLeftover } : ExecState) with
          fs := { dataDirExists := true, dataDirContents := [] } }
          RestoreStep.CLEARING 40 "Data directory cleared" with
        fsAfterClearing := some (updateJob { ({ updateJob st RestoreStep.CLEARING 30
          "Removing old data..." with
          fs := rmtreeIgnoreErrors st.fs env.rmtreeLeftover } : ExecState) with
          fs := { dataDirExists := true, dataDirContents := [] } }
          RestoreStep.CLEARING 40 "Data directory cleared").fs }
      (agrees_updateJob ..) (by simp [updateJob]) (by simp [updateJob, stepIdx])).upd
    refine List.mem_map.2 ⟨⟨RestoreStep.CLEARING, 30, "Removing old data..."⟩, ?_, rfl⟩
    rw [htl]
    simp [updateJob]
  · refine List.mem_map.2 ⟨⟨RestoreStep.CLEARING, 30, "Removing old data..."⟩, ?_, rfl⟩
    simp [failJob, updateJob]

theorem stepStop_mem_clearing (env : Env) (st : ExecState)
    (h1 : isContainerRunning env.primaryProbe = false) :
    RestoreStep.CLEARING ∈ stepsOf (stepStop env st).1 := by
  simp only [stepStop]
  rw [if_neg (by simp [h1])]
  simp only [afterStop]
  exact stepClear_mem_clearing env
    (setBackupRunning (updateJob (setRunning st false) RestoreStep.STOPPING 20
      "Server container not running") (isContainerRunning env.backupProbe))

theorem executeRestore_mem_clearing (env : Env) (job0 : RestoreJob)
    (h1 : isContainerRunning env.primaryProbe = false) :
    RestoreStep.CLEARING ∈ stepsOf (executeRestore env job0).1 :=
  stepStop_mem_clearing env (initSt env job0) h1

/-! Section: Claims -/

/-- Claim C1: while a previously created job for a server is in a
non-terminal step, `create_job` for that server returns `None` and leaves
the registry unchanged; whenever no non-terminal job exists for the server
(no marker, a dangling marker, or a terminal job), `create_job` succeeds,
returning a job with step `PENDING` and progress 0, recorded under the fresh
id, with the server marked as having an active job pointing to that id. -/
theorem claim_C1 (svc : RestoreService) (s b fid : String) :
    ((∃ jid j, svc.activeRestores s = some jid ∧ svc.jobs jid = some j
        ∧ j.step ≠ RestoreStep.COMPLETED ∧ j.step ≠ RestoreStep.FAILED) →
      createJob svc s b fid = (none, svc))
    ∧ ((∀ jid j, svc.activeRestores s = some jid → svc.jobs jid = some j →
        j.step = RestoreStep.COMPLETED ∨ j.step = RestoreStep.FAILED) →
      ∃ job, (createJob svc s b fid).1 = some job
        ∧ job.step = RestoreStep.PENDING ∧ job.progress = 0
        ∧ (createJob svc s b fid).2.activeRestores s = some fid
        ∧ (createJob svc s b fid).2.jobs fid = some job) := by
  constructor
  · rintro ⟨jid, j, hA, hJ, hc, hf⟩
    simp [createJob, hA, hJ, hc, hf]
  · intro h
    refine ⟨{ id := fid, server_name := s, backup_file := b }, ?_, rfl, rfl, ?_, ?_⟩
    · cases hA : svc.activeRestores s with
      | none => simp [createJob, hA]
      | some jid =>
        cases hJ : svc.jobs jid with
        | none => simp [createJob, hA, hJ]
        | some j =>
          rcases h jid j hA hJ with hh | hh <;> simp [createJob, hA, hJ, hh]
    · cases hA : svc.activeRestores s with
      | none => simp [createJob, hA]
      | some jid =>
        cases hJ : svc.jobs jid with
        | none => simp [createJob, hA, hJ]
        | some j =>
          rcases h jid j hA hJ with hh | hh <;> simp [createJob, hA, hJ, hh]
    · cases hA : svc.activeRestores s with
      | none => simp [createJob, hA]
      | some jid =>
        cases hJ : svc.jobs jid with
        | none => simp [createJob, hA, hJ]
        | some j =>
          rcases h jid j hA hJ with hh | hh <;> simp [createJob, hA, hJ, hh]

/-- Claim C7: after a workflow execution over an existing job terminates,
the active-restore marker for the job's server no longer points to that job
id; the `finally` release clears the marker only when it still points to
this id (a marker pointing to another id is untouched) and is idempotent. -/
theorem claim_C7 (env : Env) (svc : RestoreService) (jobId : String)
    (job : RestoreJob) (h : svc.jobs jobId = some job) :
    (runRestore env svc jobId).1.activeRestores job.server_name ≠ some jobId
    ∧ (∀ other, other ≠ jobId →
        svc.activeRestores job.server_name = some other →
        (runRestore env svc jobId).1.activeRestores job.server_name = some other)
    ∧ releaseActive (releaseActive svc job.server_name jobId) job.server_name jobId
      = releaseActive svc job.server_name jobId := by
  refine ⟨?_, ?_, ?_⟩
  · simp only [runRestore, h, releaseActive]
    split_ifs with hcond
    · simp
    · simpa using hcond
  · intro other hne hother
    simp only [runRestore, h, releaseActive]
    split_ifs with hcond
    · exfalso
      have : svc.activeRestores job.server_name = some jobId := hcond
      rw [hother] at this
      cases this
      exact hne rfl
    · exact hother
  · by_cases hc : svc.activeRestores job.server_name = some jobId
    · rw [show releaseActive svc job.server_name jobId
          = { svc with activeRestores := fun k =>
              if k = job.server_name then none else svc.activeRestores k }
          from by rw [releaseActive, if_pos hc]]
      rw [releaseActive, if_neg (by simp)]
    · have hin : releaseActive svc job.server_name jobId = svc := by
        rw [releaseActive, if_neg hc]
      rw [hin]
      exact hin

/-- Claim C2: a workflow execution ends in `FAILED` exactly when one of the
step 1-4 fatal conditions occurred (stop, directory recreation, extraction,
or start failure); at `FAILED` the error is set, `completed_at` is set, and
the final reported progress repeats the previous report; readiness failures
(timeout or log read error) never cause `FAILED` - with steps 1-4 clean the
job still reaches `COMPLETED`, reporting the timeout message. -/
theorem claim_C2 (env : Env) (job0 : RestoreJob) :
    ((executeRestore env job0).1.job.step = RestoreStep.FAILED
      ↔ anyFatal env = true)
    ∧ ((executeRestore env job0).1.job.step = RestoreStep.FAILED →
        (executeRestore env job0).1.job.error.isSome = true
        ∧ (executeRestore env job0).1.job.completed_at = true
        ∧ (progsOf (executeRestore env job0).1).getLast?
            = some (executeRestore env job0).1.job.progress
        ∧ (progsOf (executeRestore env job0).1).dropLast.getLast?
            = some (executeRestore env job0).1.job.progress)
    ∧ (isContainerRunning env.primaryProbe = true → anyFatal env = false →
        readyFound env.ready = false →
        (executeRestore env job0).1.job.step = RestoreStep.COMPLETED
        ∧ timeoutUpd ∈ (executeRestore env job0).1.updates) := by
  have hPA := executeRestore_postA env job0
  refine ⟨hPA.failIff.trans (fatal_iff_anyFatal env), ?_, ?_⟩
  · intro hf
    obtain ⟨e1, e2, e3⟩ := hPA.failD hf
    exact ⟨e1, e2, hPA.agrees.2, e3⟩
  · intro hrun hnf hready
    have hnfat : ¬((isContainerRunning env.primaryProbe = true ∧ env.stopOk = false)
        ∨ ((rmtreeIgnoreErrors env.initFs env.rmtreeLeftover).dataDirExists = false
            ∧ env.mkdirOk = false)
        ∨ env.extractOk = false
        ∨ (isContainerRunning env.primaryProbe = true ∧ env.startOk = false)) := by
      intro hcon
      have := (fatal_iff_anyFatal env).mp hcon
      rw [hnf] at this
      cases this
    rw [not_or, not_or, not_or] at hnfat
    obtain ⟨hA, hB, hC, hD⟩ := hnfat
    have hstop : env.stopOk = true := by
      cases hs : env.stopOk
      · exact absurd ⟨hrun, hs⟩ hA
      · rfl
    have hex : env.extractOk = true := by
      cases he : env.extractOk
      · exact absurd he hC
      · rfl
    have hstart : env.startOk = true := by
      cases hst : env.startOk
      · exact absurd ⟨hrun, hst⟩ hD
      · rfl
    have hclear : (rmtreeIgnoreErrors env.initFs env.rmtreeLeftover).dataDirExists = true
        ∨ env.mkdirOk = true := by
      cases hd : (rmtreeIgnoreErrors env.initFs env.rmtreeLeftover).dataDirExists
      · cases hm : env.mkdirOk
        · exact absurd ⟨hd, hm⟩ hB
        · exact Or.inr rfl
      · exact Or.inl rfl
    have hnotf : (executeRestore env job0).1.job.step ≠ RestoreStep.FAILED := by
      intro hcon
      have := hPA.failIff.trans (fatal_iff_anyFatal env) |>.mp hcon
      rw [hnf] at this
      cases this
    rcases hPA.term with hcomp | hfail
    · exact ⟨hcomp, executeRestore_msg env job0 hrun hstop hclear hex hstart hready⟩
    · exact absurd hfail hnotf

/-- Claim C3: the workflow records exactly the probed pre-restore state of
the primary container; a `COMPLETED` run started the container if and only
if it was recorded running; a container recorded not running is never
started; and a start failure yields a non-`COMPLETED` (failed) run. -/
theorem claim_C3 (env : Env) (job0 : RestoreJob) :
    (executeRestore env job0).1.job.container_was_running
      = isContainerRunning env.primaryProbe
    ∧ ((executeRestore env job0).1.job.step = RestoreStep.COMPLETED →
        (Event.startedPrimary ∈ (executeRestore env job0).1.events
          ↔ (executeRestore env job0).1.job.container_was_running = true))
    ∧ (isContainerRunning env.primaryProbe = false →
        Event.startedPrimary ∉ (executeRestore env job0).1.events)
    ∧ (isContainerRunning env.primaryProbe = true → env.startOk = false →
        (executeRestore env job0).1.job.step ≠ RestoreStep.COMPLETED) := by
  obtain ⟨hstart, hstop⟩ := executeRestore_events env job0
  have hPA := executeRestore_postA env job0
  refine ⟨executeRestore_flag env job0, ?_, ?_, ?_⟩
  · intro hcomp
    rw [hstart, executeRestore_flag]
    have hnfat : ¬((isContainerRunning env.primaryProbe = true ∧ env.stopOk = false)
        ∨ ((rmtreeIgnoreErrors env.initFs env.rmtreeLeftover).dataDirExists = false
            ∧ env.mkdirOk = false)
        ∨ env.extractOk = false
        ∨ (isContainerRunning env.primaryProbe = true ∧ env.startOk = false)) := by
      intro hcon
      have := hPA.failIff.mpr hcon
      rw [hcomp] at this
      cases this
    rw [not_or, not_or, not_or] at hnfat
    obtain ⟨hA, hB, hC, hD⟩ := hnfat
    constructor
    · rintro ⟨h1, _⟩; exact h1
    · intro h1
      refine ⟨h1, ?_, ?_, ?_, ?_⟩
      · cases hs : env.stopOk
        · exact absurd ⟨h1, hs⟩ hA
        · rfl
      · cases hd : (rmtreeIgnoreErrors env.initFs env.rmtreeLeftover).dataDirExists
        · cases hm : env.mkdirOk
          · exact absurd ⟨hd, hm⟩ hB
          · exact Or.inr rfl
        · exact Or.inl rfl
      · cases he : env.extractOk
        · exact absurd he hC
        · rfl
      · cases hst : env.startOk
        · exact absurd ⟨h1, hst⟩ hD
        · rfl
  · intro hfalse
    rw [hstart]
    rintro ⟨h1, _⟩
    rw [hfalse] at h1
    cases h1
  · intro hrun hsf hcomp
    have := hPA.failIff.mpr (Or.inr (Or.inr (Or.inr ⟨hrun, hsf⟩)))
    rw [hcomp] at this
    cases this

/-- Claim C5: the reported step sequence (starting from the job's initial
`PENDING`) is monotone in the success order `PENDING, STOPPING, CLEARING,
EXTRACTING, STARTING, WAITING_READY, COMPLETED` with `FAILED` after every
non-terminal step; terminal steps appear only as the final report; every run
ends in `COMPLETED` or `FAILED`; and `WAITING_READY` is reported only when
the primary container was recorded running. -/
theorem claim_C5 (env : Env) (job0 : RestoreJob) :
    List.Chain' stepLe (RestoreStep.PENDING :: stepsOf (executeRestore env job0).1)
    ∧ (∀ s ∈ (stepsOf (executeRestore env job0).1).dropLast, ¬ Terminal s)
    ∧ ((stepsOf (executeRestore env job0).1).getLast? = some RestoreStep.COMPLETED
        ∨ (stepsOf (executeRestore env job0).1).getLast? = some RestoreStep.FAILED)
    ∧ (RestoreStep.WAITING_READY ∈ stepsOf (executeRestore env job0).1 →
        (executeRestore env job0).1.job.container_was_running = true) := by
  have hPA := executeRestore_postA env job0
  refine ⟨?_, ?_, ?_, ?_⟩
  · apply hPA.chainS
    show List.Chain' stepLe [RestoreStep.PENDING, RestoreStep.STOPPING]
    refine List.chain'_cons.2 ⟨?_, List.chain'_singleton _⟩
    show stepIdx RestoreStep.PENDING ≤ stepIdx RestoreStep.STOPPING
    decide
  · refine hPA.noterm ?_
    show ∀ s ∈ ([RestoreStep.STOPPING] : List RestoreStep), ¬ Terminal s
    intro s hs
    simp at hs
    rw [hs]
    simp [Terminal]
  · rcases hPA.term with h | h
    · exact Or.inl (by rw [hPA.agrees.1, h])
    · exact Or.inr (by rw [hPA.agrees.1, h])
  · intro h
    rw [executeRestore_flag]
    exact executeRestore_wr env job0 h

/-- Claim C6: every reported progress value is an integer in [0,100], the
reported sequence is non-decreasing, a `COMPLETED` run's final report is
exactly 100, and a `FAILED` run's final report repeats the previous one. -/
theorem claim_C6 (env : Env) (job0 : RestoreJob) :
    List.Chain' (fun a b => a ≤ b) (progsOf (executeRestore env job0).1)
    ∧ (∀ p ∈ progsOf (executeRestore env job0).1, p ≤ 100)
    ∧ ((executeRestore env job0).1.job.step = RestoreStep.COMPLETED →
        (progsOf (executeRestore env job0).1).getLast? = some 100)
    ∧ ((executeRestore env job0).1.job.step = RestoreStep.FAILED →
        (progsOf (executeRestore env job0).1).getLast?
          = (progsOf (executeRestore env job0).1).dropLast.getLast?) := by
  have hPA := executeRestore_postA env job0
  refine ⟨?_, ?_, ?_, ?_⟩
  · apply hPA.chainP
    show List.Chain' (fun a b => a ≤ b) [5]
    exact List.chain'_singleton 5
  · refine hPA.bound ?_
    show ∀ p ∈ ([5] : List Nat), p ≤ 100
    decide
  · intro hc
    rw [hPA.agrees.2, (hPA.compD hc).1]
  · intro hf
    exact hPA.agrees.2.trans ((hPA.failD hf).2.2).symm

/-- Claim C10: a probe that raises returns false rather than propagating;
consequently the workflow records the container as not running, performs no
stop and no start of the primary container, still reports the CLEARING
step (proceeding to clear and extract), and can fail only for a
directory-recreation or extraction cause, never because of the probe. -/
theorem claim_C10 (env : Env) (job0 : RestoreJob)
    (h : env.primaryProbe = ProbeResult.probeError) :
    isContainerRunning ProbeResult.probeError = false
    ∧ (executeRestore env job0).1.job.container_was_running = false
    ∧ Event.stoppedPrimary ∉ (executeRestore env job0).1.events
    ∧ Event.startedPrimary ∉ (executeRestore env job0).1.events
    ∧ RestoreStep.CLEARING ∈ stepsOf (executeRestore env job0).1
    ∧ ((executeRestore env job0).1.job.step = RestoreStep.FAILED →
        ((rmtreeIgnoreErrors env.initFs env.rmtreeLeftover).dataDirExists = false
          ∧ env.mkdirOk = false)
        ∨ env.extractOk = false) := by
  have hrf : isContainerRunning env.primaryProbe = false := by rw [h]; rfl
  obtain ⟨hstart, hstop⟩ := executeRestore_events env job0
  refine ⟨rfl, ?_, ?_, ?_, ?_, ?_⟩
  · rw [executeRestore_flag, hrf]
  · rw [hstop]
    rintro ⟨h1, _⟩
    rw [hrf] at h1
    cases h1
  · rw [hstart]
    rintro ⟨h1, _⟩
    rw [hrf] at h1
    cases h1
  · exact executeRestore_mem_clearing env job0 hrf
  · intro hfail
    have hfat := (executeRestore_postA env job0).failIff.mp hfail
    rcases hfat with ⟨h1, _⟩ | hcl | hex | ⟨h1, _⟩
    · rw [hrf] at h1; cases h1
    · exact Or.inl hcl
    · exact Or.inr hex
    · rw [hrf] at h1; cases h1

/-- Concrete environment exhibiting a deletion failure: the data directory
exists with one undeletable entry, every other effect succeeds. -/
def envLeftover : Env :=
  ⟨ProbeResult.otherStatus, ProbeResult.otherStatus, true,
    ⟨true, ["world"]⟩, ["world"], true, true, [], true, true, ReadyOutcome.found⟩

/-- A job record as created by the registry. -/
def job1 : RestoreJob := { id := "j1", server_name := "alpha", backup_file := "b.tgz" }

/-- Counterexample to claim C4 as stated: with `ignore_errors=True` a failed
deletion is swallowed, so at the end of the CLEARING step the data
directory still holds the undeleted entry, is not empty, and the job does
not fail - it runs to `COMPLETED`. -/
theorem claim_C4_counterexample :
    (executeRestore envLeftover job1).1.fsAfterClearing
      = some { dataDirExists := true, dataDirContents := ["world"] }
    ∧ ({ dataDirExists := true, dataDirContents := ["world"] } : Fs).dataDirContents ≠ []
    ∧ (executeRestore envLeftover job1).1.job.step = RestoreStep.COMPLETED := by
  have hPA := executeRestore_postA envLeftover job1
  have hnf : ¬((isContainerRunning envLeftover.primaryProbe = true
        ∧ envLeftover.stopOk = false)
      ∨ ((rmtreeIgnoreErrors envLeftover.initFs envLeftover.rmtreeLeftover).dataDirExists
            = false ∧ envLeftover.mkdirOk = false)
      ∨ envLeftover.extractOk = false
      ∨ (isContainerRunning envLeftover.primaryProbe = true
        ∧ envLeftover.startOk = false)) := by decide
  have hcomp : (executeRestore envLeftover job1).1.job.step = RestoreStep.COMPLETED := by
    rcases hPA.term with hc | hf
    · exact hc
    · exact absurd (hPA.failIff.mp hf) hnf
  exact ⟨rfl, by simp, hcomp⟩

/-- Claim C4 (amended): at the end of the CLEARING step the server's data
directory exists; it is empty provided the recursive deletion removed
everything (deletion errors are ignored rather than fatal, so undeleted
contents may survive into extraction without failing the job); and when the
directory is absent after deletion and cannot be recreated, the job fails
with no CLEARING snapshot taken. -/
theorem claim_C4_amended (env : Env) (job0 : RestoreJob) :
    (∀ fs, (executeRestore env job0).1.fsAfterClearing = some fs →
      fs.dataDirExists = true)
    ∧ (env.rmtreeLeftover = [] →
        ∀ fs, (executeRestore env job0).1.fsAfterClearing = some fs →
          fs.dataDirContents = [])
    ∧ ((rmtreeIgnoreErrors env.initFs env.rmtreeLeftover).dataDirExists = false →
        env.mkdirOk = false →
        (executeRestore env job0).1.job.step = RestoreStep.FAILED
        ∧ (executeRestore env job0).1.fsAfterClearing = none) := by
  refine ⟨?_, ?_, ?_⟩
  · intro fs hfs
    rcases executeRestore_fsac env job0 with h | ⟨h1, h2⟩ | ⟨h1, h2⟩
    · rw [h] at hfs; cases hfs
    · rw [h2] at hfs; cases hfs; exact h1
    · rw [h2] at hfs; cases hfs; rfl
  · intro hlo fs hfs
    rcases executeRestore_fsac env job0 with h | ⟨h1, h2⟩ | ⟨h1, h2⟩
    · rw [h] at hfs; cases hfs
    · rw [hlo] at h1
      rw [rmtreeIgnoreErrors] at h1
      split_ifs at h1 <;> simp at h1
    · rw [h2] at hfs; cases hfs; rfl
  · intro hd hm
    refine ⟨?_, executeRestore_fsac_fail env job0 hd hm⟩
    exact (executeRestore_postA env job0).failIff.mpr (Or.inr (Or.inl ⟨hd, hm⟩))

/-- Claim C8: extraction with the `data` filter writes only under the
destination directory; any member whose resolved path escapes the
destination makes extraction error out; and no part of an escaping member
is ever among the written paths. -/
theorem claim_C8 (dest : List String) (entries : List TarEntry) :
    (∀ p ∈ (extractAll dest entries).1, dest.isPrefixOf p = true)
    ∧ ((∃ e ∈ entries, escapesDest dest e = true) →
        (extractAll dest entries).2 = false)
    ∧ (∀ e, escapesDest dest e = true →
        ∀ p ∈ (extractAll dest entries).1, dataFilterResolve dest e ≠ some p) :=
  ⟨extractAll_written_under dest entries,
   extractAll_escape_fails dest entries,
   fun e he => extractAll_escape_not_written dest entries e he⟩

/-- Claim C9 (modelled from the spec, section 4.3): the update operation
mutates the job's `step`, `progress` and `message` fields, then delivers a
snapshot of the updated state to the sink registered for the job id, if one
is registered; the mutated job state is the same whether no sink is
registered, delivery succeeds, or delivery fails - a delivery failure is
swallowed. -/
theorem claim_C9 (sink : Option (Snapshot → Except String Unit))
    (job : RestoreJob) (s : RestoreStep) (p : Nat) (m : String) :
    (updateJobWithSink sink job s p m).1
      = { job with step := s, progress := p, message := m }
    ∧ (∀ f, sink = some f →
        (updateJobWithSink sink job s p m).2
          = some ⟨job.id, s, p, m, job.error⟩)
    ∧ (sink = none → (updateJobWithSink sink job s p m).2 = none)
    ∧ (∀ f g, (updateJobWithSink (some f) job s p m).1
        = (updateJobWithSink (some g) job s p m).1) := by
  refine ⟨?_, ?_, ?_, fun f g => rfl⟩
  · cases sink <;> rfl
  · intro f hf
    rw [hf]
    rfl
  · intro hn
    rw [hn]
    rfl

/-! Section: Concrete instances for the witnesses -/

def svcEmpty : RestoreService := ⟨fun _ => none, fun _ => none⟩

def svcBusy : RestoreService :=
  ⟨fun k => if k = "j1" then some job1 else none,
   fun k => if k = "alpha" then some "j1" else none⟩

def envStopFail : Env :=
  ⟨ProbeResult.running, ProbeResult.otherStatus, false, ⟨true, []⟩, [],
    true, true, [], true, true, ReadyOutcome.found⟩

def envTimeout : Env :=
  ⟨ProbeResult.running, ProbeResult.otherStatus, true, ⟨true, []⟩, [],
    true, true, [], true, true, ReadyOutcome.timedOut⟩

def envStartFail : Env :=
  ⟨ProbeResult.running, ProbeResult.otherStatus, true, ⟨true, []⟩, [],
    true, true, [], false, true, ReadyOutcome.found⟩

def envProbeErr : Env :=
  ⟨ProbeResult.probeError, ProbeResult.otherStatus, true, ⟨true, []⟩, [],
    true, true, [], true, true, ReadyOutcome.found⟩

def envNoDir : Env :=
  ⟨ProbeResult.otherStatus, ProbeResult.otherStatus, true, ⟨false, []⟩, [],
    false, true, [], true, true, ReadyOutcome.found⟩

def destData : List String := ["srv", "alpha", "data"]

def evilEntry : TarEntry := ⟨false, ["..", "..", "..", "etc", "passwd"]⟩

def okEntry : TarEntry := ⟨false, ["world", "level.dat"]⟩

def sinkFail : Snapshot → Except String Unit := fun _ => Except.error "client disconnected"

/-- Witness for C1: a busy registry rejects a second job for the same
server; an empty registry creates a fresh pending job and marks the server. -/
theorem claim_C1_witness :
    createJob svcBusy "alpha" "c.tgz" "j2" = (none, svcBusy)
    ∧ ∃ job, (createJob svcEmpty "alpha" "b.tgz" "j1").1 = some job
        ∧ job.step = RestoreStep.PENDING ∧ job.progress = 0
        ∧ (createJob svcEmpty "alpha" "b.tgz" "j1").2.activeRestores "alpha" = some "j1"
        ∧ (createJob svcEmpty "alpha" "b.tgz" "j1").2.jobs "j1" = some job := by
  constructor
  · exact (claim_C1 svcBusy "alpha" "c.tgz" "j2").1
      ⟨"j1", job1, rfl, rfl, by decide, by decide⟩
  · exact (claim_C1 svcEmpty "alpha" "b.tgz" "j1").2
      (fun jid j hA => by simp [svcEmpty] at hA)

/-- Witness for C2: a stop failure yields `FAILED`; a readiness timeout
still yields `COMPLETED` with the timeout message reported. -/
theorem claim_C2_witness :
    anyFatal envStopFail = true
    ∧ (executeRestore envStopFail job1).1.job.step = RestoreStep.FAILED
    ∧ ((executeRestore envTimeout job1).1.job.step = RestoreStep.COMPLETED
        ∧ timeoutUpd ∈ (executeRestore envTimeout job1).1.updates) :=
  ⟨rfl, ((claim_C2 envStopFail job1).1).mpr rfl,
   (claim_C2 envTimeout job1).2.2 rfl rfl rfl⟩

/-- Witness for C3: a run over a running container records the probed state;
a start failure prevents `COMPLETED`; a probe error means the container is
never started. -/
theorem claim_C3_witness :
    (executeRestore envTimeout job1).1.job.container_was_running
      = isContainerRunning envTimeout.primaryProbe
    ∧ (executeRestore envStartFail job1).1.job.step ≠ RestoreStep.COMPLETED
    ∧ Event.startedPrimary ∉ (executeRestore envProbeErr job1).1.events :=
  ⟨(claim_C3 envTimeout job1).1,
   (claim_C3 envStartFail job1).2.2.2 rfl rfl,
   (claim_C3 envProbeErr job1).2.2.1 rfl⟩

/-- Witness for C4 (amended): a missing directory whose recreation fails
makes the job fail with no CLEARING snapshot. -/
theorem claim_C4_amended_witness :
    (rmtreeIgnoreErrors envNoDir.initFs envNoDir.rmtreeLeftover).dataDirExists = false
    ∧ envNoDir.mkdirOk = false
    ∧ (executeRestore envNoDir job1).1.job.step = RestoreStep.FAILED
    ∧ (executeRestore envNoDir job1).1.fsAfterClearing = none := by
  have h := (claim_C4_amended envNoDir job1).2.2 rfl rfl
  exact ⟨rfl, rfl, h.1, h.2⟩

/-- Witness for C5: a run that reports `WAITING_READY` had recorded the
primary container as running. -/
theorem claim_C5_witness :
    RestoreStep.WAITING_READY ∈ stepsOf (executeRestore envTimeout job1).1
    ∧ (executeRestore envTimeout job1).1.job.container_was_running = true := by
  have hm : timeoutUpd ∈ (executeRestore envTimeout job1).1.updates :=
    executeRestore_msg envTimeout job1 rfl rfl (Or.inr rfl) rfl rfl rfl
  have hwr : RestoreStep.WAITING_READY ∈ stepsOf (executeRestore envTimeout job1).1 :=
    List.mem_map.2 ⟨timeoutUpd, hm, rfl⟩
  exact ⟨hwr, (claim_C5 envTimeout job1).2.2.2 hwr⟩

/-- Witness for C6: a completed run's final reported progress is 100. -/
theorem claim_C6_witness :
    (executeRestore envTimeout job1).1.job.step = RestoreStep.COMPLETED
    ∧ (progsOf (executeRestore envTimeout job1).1).getLast? = some 100 := by
  have hPA := executeRestore_postA envTimeout job1
  have hnf : ¬((isContainerRunning envTimeout.primaryProbe = true
        ∧ envTimeout.stopOk = false)
      ∨ ((rmtreeIgnoreErrors envTimeout.initFs envTimeout.rmtreeLeftover).dataDirExists
            = false ∧ envTimeout.mkdirOk = false)
      ∨ envTimeout.extractOk = false
      ∨ (isContainerRunning envTimeout.primaryProbe = true
        ∧ envTimeout.startOk = false)) := by decide
  have hcomp : (executeRestore envTimeout job1).1.job.step = RestoreStep.COMPLETED := by
    rcases hPA.term with hc | hf
    · exact hc
    · exact absurd (hPA.failIff.mp hf) hnf
  exact ⟨hcomp, (claim_C6 envTimeout job1).2.2.1 hcomp⟩

/-- Witness for C7: after the workflow over the busy registry's job, the
server's active marker no longer points to that job. -/
theorem claim_C7_witness :
    (runRestore envTimeout svcBusy "j1").1.activeRestores "alpha" ≠ some "j1" := by
  have h : svcBusy.jobs "j1" = some job1 := by decide
  exact (claim_C7 envTimeout svcBusy "j1" job1 h).1

/-- Witness for C8: an archive with a traversal member makes extraction
error out. -/
theorem claim_C8_witness :
    escapesDest destData evilEntry = true
    ∧ (extractAll destData [okEntry, evilEntry]).2 = false := by
  refine ⟨rfl, ?_⟩
  exact (claim_C8 destData [okEntry, evilEntry]).2.1 ⟨evilEntry, by simp, rfl⟩

/-- Witness for C9: a failing sink still receives the snapshot and leaves
the mutated job state unchanged. -/
theorem claim_C9_witness :
    (updateJobWithSink (some sinkFail) job1 RestoreStep.STOPPING 5
      "Checking container status...").1
      = { job1 with step := RestoreStep.STOPPING, progress := 5, message := "Checking container status..." }
    ∧ (updateJobWithSink (some sinkFail) job1 RestoreStep.STOPPING 5
      "Checking container status...").2
      = some ⟨"j1", RestoreStep.STOPPING, 5, "Checking container status...", none⟩ :=
  ⟨(claim_C9 (some sinkFail) job1 RestoreStep.STOPPING 5
      "Checking container status...").1,
   (claim_C9 (some sinkFail) job1 RestoreStep.STOPPING 5
      "Checking container status...").2.1 sinkFail rfl⟩

/-- Witness for C10: with the probe raising, the run records the container
as not running. -/
theorem claim_C10_witness :
    envProbeErr.primaryProbe = ProbeResult.probeError
    ∧ (executeRestore envProbeErr job1).1.job.container_was_running = false :=
  ⟨rfl, (claim_C10 envProbeErr job1 rfl).2.1⟩
